import Mathlib

/-!
Deletion state machine and served-instance resolver of the docker-registry operator

A shallow embedding of `components/operator/internal/state/delete.go` and
`components/operator/internal/state/utils.go`.

Conventions of the embedding:

* Go pointers to mutable records (`*systemState`) become explicit state passing: every step
  takes the state and the world and returns an `Outcome` holding the returned triple, the
  state after the step and the world after the step.
* The world holds everything outside the process: the cluster-side chart state, the record of
  the chart operations invoked so far, the lines written to the logger and the clock read by
  the condition helpers.
* A Go `error` is a value of `GoError`; a nil error is `none`.
* A nilable pointer result is an `Option`.
-/

/-! ## Errors -/

/-- A Go error value: an ordinary error, a Kubernetes API status error whose reason is
NotFound, or an error wrapped with a context message by `errors.Wrap`. -/
inductive GoError where
  | plain (text : String)
  | notFound (text : String)
  | wrap (cause : GoError) (context : String)
  deriving DecidableEq, Repr

/-- The text of an error, `err.Error()`; a wrapped error prints its context, a colon and the
text of its cause. -/
def GoError.Error : GoError → String
  | .plain t => t
  | .notFound t => t
  | .wrap c ctx => ctx ++ ": " ++ GoError.Error c

/-- The innermost error of a chain of wraps, `errors.Cause`. -/
def GoError.Cause : GoError → GoError
  | .wrap c _ => GoError.Cause c
  | e => e

/-- The call `errors.Wrap(err, message)` of github.com/pkg/errors on a non-nil error. -/
def errors.Wrap (err : GoError) (message : String) : GoError :=
  .wrap err message

/-- The test `k8serrors.IsNotFound`: the error, or an error it wraps, is a status error with
reason NotFound. -/
def k8serrors.IsNotFound : GoError → Bool
  | .plain _ => false
  | .notFound _ => true
  | .wrap c _ => k8serrors.IsNotFound c

/-! ## The API types (`api/v1alpha1`) -/

/-- Modelled from the spec: the declaration of `v1alpha1.State` is outside the given sources.
The spec's `Phase` enum {None, Processing, Deleting, Warning, Error, Ready}; the constructors
carry the names the source uses (`v1alpha1.StateDeleting`, ...). -/
inductive v1alpha1.State where
  | StateNone
  | StateProcessing
  | StateDeleting
  | StateWarning
  | StateError
  | StateReady
  deriving DecidableEq, Repr

/-- Modelled from the spec: the declaration of `v1alpha1.Served` is outside the given sources.
The spec's tri-state {Unset, True, False}. -/
inductive v1alpha1.Served where
  | ServedUnset
  | ServedTrue
  | ServedFalse
  deriving DecidableEq, Repr

/-- Modelled from the spec: the condition types are declared outside the given sources; the
spec names `Deleted` and allows others. -/
inductive v1alpha1.ConditionType where
  | ConditionTypeDeleted
  | other (name : String)
  deriving DecidableEq, Repr

/-- Modelled from the spec: the condition reasons are declared outside the given sources. The
three constants the deletion steps use are kept apart by name; their text is not part of the
given sources. -/
inductive v1alpha1.ConditionReason where
  | ConditionReasonDeletion
  | ConditionReasonDeletionErr
  | ConditionReasonDeleted
  | other (name : String)
  deriving DecidableEq, Repr

/-- The three-valued status of a condition. -/
inductive v1alpha1.ConditionStatus where
  | Unknown
  | True
  | False
  deriving DecidableEq, Repr

/-- Modelled from the spec: one entry of `Conditions`,
{status, reason, message, lastTransitionTime} keyed by its type. -/
structure v1alpha1.Condition where
  type : v1alpha1.ConditionType
  status : v1alpha1.ConditionStatus
  reason : v1alpha1.ConditionReason
  message : String
  lastTransitionTime : Nat
  deriving DecidableEq, Repr

/-- Modelled from the spec: the status of a managed resource, its phase, its served mark and
its conditions. -/
structure v1alpha1.DockerRegistryStatus where
  State : v1alpha1.State
  Served : v1alpha1.Served
  Conditions : List v1alpha1.Condition
  deriving DecidableEq, Repr

/-- Modelled from the spec: the managed resource, identified by namespace and name. -/
structure v1alpha1.DockerRegistry where
  Namespace : String
  Name : String
  Status : v1alpha1.DockerRegistryStatus
  deriving DecidableEq, Repr

open v1alpha1 in
/-- Modelled from the spec: `IsServedEmpty` is outside the given sources; `Served` is unset. -/
def v1alpha1.DockerRegistry.IsServedEmpty (d : DockerRegistry) : Bool :=
  d.Status.Served == Served.ServedUnset

open v1alpha1 in
/-- Modelled from the spec: the shared body of the three `UpdateCondition...` operations of
4.3. The existing entry for the type is overwritten in place, reason and message are recorded,
and the last-transition time is replaced only when the status value changes; when there is no
entry for the type one is added at the end. -/
def v1alpha1.setStatusCondition (conds : List Condition) (new : Condition) : List Condition :=
  match conds with
  | [] => [new]
  | c :: cs =>
    if c.type = new.type then
      (if c.status = new.status then
        { c with reason := new.reason, message := new.message }
      else
        { c with status := new.status, reason := new.reason, message := new.message,
                 lastTransitionTime := new.lastTransitionTime }) :: cs
    else c :: v1alpha1.setStatusCondition cs new

open v1alpha1 in
/-- Modelled from the spec: the lookup of the entry for a condition type (the conditions are
keyed by type). -/
def v1alpha1.findStatusCondition (conds : List Condition) (t : ConditionType) :
    Option Condition :=
  conds.find? (fun c => c.type = t)

open v1alpha1 in
/-- Modelled from the spec: `UpdateConditionUnknown(type, reason, message)` of 4.3. -/
def v1alpha1.DockerRegistry.UpdateConditionUnknown (d : DockerRegistry) (now : Nat)
    (c : ConditionType) (r : ConditionReason) (msg : String) : DockerRegistry :=
  let condition : Condition :=
    { type := c, status := .Unknown, reason := r, message := msg, lastTransitionTime := now }
  let conditions := setStatusCondition d.Status.Conditions condition
  { d with Status := { d.Status with Conditions := conditions } }

open v1alpha1 in
/-- Modelled from the spec: `UpdateConditionTrue(type, reason, message)` of 4.3. -/
def v1alpha1.DockerRegistry.UpdateConditionTrue (d : DockerRegistry) (now : Nat)
    (c : ConditionType) (r : ConditionReason) (msg : String) : DockerRegistry :=
  let condition : Condition :=
    { type := c, status := .True, reason := r, message := msg, lastTransitionTime := now }
  let conditions := setStatusCondition d.Status.Conditions condition
  { d with Status := { d.Status with Conditions := conditions } }

open v1alpha1 in
/-- Modelled from the spec: `UpdateConditionFalse(type, reason, error)` of 4.3; the message is
the error detail. -/
def v1alpha1.DockerRegistry.UpdateConditionFalse (d : DockerRegistry) (now : Nat)
    (c : ConditionType) (r : ConditionReason) (err : GoError) : DockerRegistry :=
  let condition : Condition :=
    { type := c, status := .False, reason := r, message := err.Error, lastTransitionTime := now }
  let conditions := setStatusCondition d.Status.Conditions condition
  { d with Status := { d.Status with Conditions := conditions } }

/-! ## The chart collaborator (`internal/chart`) -/

/-- Modelled from the spec: the chart package is outside the given sources. Its three
operations as the spec's section 6 gives them, over a chart configuration `χ`, a cluster-side
chart state `κ` and filters `φ`. The check reads the cluster; the two uninstall operations may
change it. -/
structure chart.Ops (χ κ φ : Type) where
  CheckCRDOrphanResources : χ → κ → Option GoError
  UninstallSecrets : χ → List φ → κ → (Option GoError × Bool) × κ
  Uninstall : χ → List φ → κ → Option GoError × κ

/-- One invocation of a chart operation, with the filters it received and what it returned. -/
inductive chart.Call (φ : Type) where
  | CheckCRDOrphanResources (err : Option GoError)
  | UninstallSecrets (filterFuncs : List φ) (err : Option GoError) (done : Bool)
  | Uninstall (filterFuncs : List φ) (err : Option GoError)
  deriving DecidableEq, Repr

/-- The call is an invocation of `chart.Uninstall`. -/
def chart.Call.isUninstall {φ : Type} : chart.Call φ → Bool
  | .Uninstall _ _ => true
  | _ => false

/-- The call is an invocation of `chart.UninstallSecrets`. -/
def chart.Call.isUninstallSecrets {φ : Type} : chart.Call φ → Bool
  | .UninstallSecrets _ _ _ => true
  | _ => false

/-! ## The state machine (`internal/state`) -/

/-- The result directive `ctrl.Result` of controller-runtime; the duration is in nanoseconds. -/
structure ctrl.Result where
  Requeue : Bool
  RequeueAfter : Int
  deriving DecidableEq, Repr

/-- The duration `time.Second`, in nanoseconds. -/
def time.Second : Int := 1000000000

/-- The step functions a step can hand over to, by name (the Go `stateFn` values). -/
inductive state.stateFn where
  | sFnDeleteResources
  | sFnSafeDeletionState
  | sFnRemoveFinalizer
  deriving DecidableEq, Repr

/-- The triple every step returns: next step, requeue directive, error. -/
abbrev state.StepResult : Type := Option state.stateFn × Option ctrl.Result × Option GoError

/-- Everything outside the process that a step can touch or read. -/
structure state.World (κ φ : Type) where
  cluster : κ
  calls : List (chart.Call φ)
  log : List String
  now : Nat

/-- Modelled from the spec: the declaration of `systemState` is outside the given sources; the
steps use the managed resource and the chart configuration. -/
structure state.systemState (χ : Type) where
  «instance» : v1alpha1.DockerRegistry
  chartConfig : χ

/-- What a step leaves behind: the returned triple, the state and the world. -/
structure state.Outcome (χ κ φ : Type) where
  result : state.StepResult
  s : state.systemState χ
  world : state.World κ φ

/-- Modelled from the spec: `setState` is outside the given sources; it sets the phase. -/
def state.systemState.setState {χ : Type} (s : state.systemState χ) (st : v1alpha1.State) :
    state.systemState χ :=
  let status := { s.«instance».Status with State := st }
  { s with «instance» := { s.«instance» with Status := status } }

/-- Modelled from the spec: `nextState` is outside the given sources; the step hands over to
the next step, with no directive and no error. -/
def state.nextState (next : state.stateFn) : state.StepResult :=
  (some next, none, none)

/-- Modelled from the spec: `stopWithEventualError` is outside the given sources; the machine
stops, surfacing the error, with no next step and no requeue directive. -/
def state.stopWithEventualError (err : Option GoError) : state.StepResult :=
  (none, none, err)

/-- Modelled from the spec: `requeueAfter` is outside the given sources; the machine stops with
the directive "requeue after duration D". -/
def state.requeueAfter (duration : Int) : state.StepResult :=
  (none, some { Requeue := false, RequeueAfter := duration }, none)

/-- The text of `client.ObjectKeyFromObject(&s.instance)` in a log line: namespace, a slash,
name. -/
def state.objectKeyString (d : v1alpha1.DockerRegistry) : String :=
  d.Namespace ++ "/" ++ d.Name

section Steps

variable {χ κ φ : Type}

open v1alpha1 state

/-- The step `sFnDeleteResources` of delete.go: delete dockerregistry based on previously
installed resources. -/
def state.sFnDeleteResources (s : systemState χ) (w : World κ φ) : Outcome χ κ φ :=
  let s := s.setState State.StateDeleting
  let updated := s.«instance».UpdateConditionUnknown w.now
    ConditionType.ConditionTypeDeleted ConditionReason.ConditionReasonDeletion "Uninstalling"
  let s := { s with «instance» := updated }
  { result := nextState stateFn.sFnSafeDeletionState, s := s, world := w }

/-- The helper `uninstallResourcesError` of delete.go. -/
def state.uninstallResourcesError (s : systemState χ) (w : World κ φ) (err : GoError) :
    Outcome χ κ φ :=
  let line := "error while uninstalling resource " ++
    objectKeyString s.«instance» ++ ": " ++ err.Error
  let w := { w with log := w.log ++ [line] }
  let s := s.setState State.StateError
  let updated := s.«instance».UpdateConditionFalse w.now
    ConditionType.ConditionTypeDeleted ConditionReason.ConditionReasonDeletionErr err
  let s := { s with «instance» := updated }
  { result := stopWithEventualError (some err), s := s, world := w }

/-- The helper `awaitingSecretsRemoval` of delete.go: wait one second until the controller
manager removes the finalizers from the secrets. -/
def state.awaitingSecretsRemoval (s : systemState χ) (w : World κ φ) : Outcome χ κ φ :=
  let s := s.setState State.StateDeleting
  let updated := s.«instance».UpdateConditionTrue w.now
    ConditionType.ConditionTypeDeleted ConditionReason.ConditionReasonDeletion
    "Deleting secrets"
  let s := { s with «instance» := updated }
  { result := requeueAfter time.Second, s := s, world := w }

/-- The helper `uninstallSecretsError` of delete.go. -/
def state.uninstallSecretsError (s : systemState χ) (w : World κ φ) (err : GoError) :
    Outcome χ κ φ :=
  let line := "error while uninstalling secrets " ++
    objectKeyString s.«instance» ++ ": " ++ err.Error
  let w := { w with log := w.log ++ [line] }
  let s := s.setState State.StateError
  let updated := s.«instance».UpdateConditionFalse w.now
    ConditionType.ConditionTypeDeleted ConditionReason.ConditionReasonDeletionErr err
  let s := { s with «instance» := updated }
  { result := stopWithEventualError (some err), s := s, world := w }

/-- The function `deleteResourcesWithFilter` of delete.go. Each chart operation runs on the
cluster state the previous one left and is recorded with its filters and its return value. -/
def state.deleteResourcesWithFilter (ch : chart.Ops χ κ φ) (s : systemState χ) (w : World κ φ)
    (filterFuncs : List φ) : Outcome χ κ φ :=
  let secrets := ch.UninstallSecrets s.chartConfig filterFuncs w.cluster
  let call := chart.Call.UninstallSecrets filterFuncs secrets.1.1 secrets.1.2
  let w := { w with cluster := secrets.2, calls := w.calls ++ [call] }
  match secrets.1.1 with
  | some err => uninstallSecretsError s w err
  | none =>
    if !secrets.1.2 then
      awaitingSecretsRemoval s w
    else
      let rest := ch.Uninstall s.chartConfig filterFuncs w.cluster
      let call := chart.Call.Uninstall filterFuncs rest.1
      let w := { w with cluster := rest.2, calls := w.calls ++ [call] }
      match rest.1 with
      | some err => uninstallResourcesError s w err
      | none =>
        let s := s.setState State.StateDeleting
        let updated := s.«instance».UpdateConditionTrue w.now
          ConditionType.ConditionTypeDeleted ConditionReason.ConditionReasonDeleted
          "DockerRegistry module deleted"
        let s := { s with «instance» := updated }
        -- if resources are ready to be deleted, remove finalizer
        { result := nextState stateFn.sFnRemoveFinalizer, s := s, world := w }

/-- The step `sFnSafeDeletionState` of delete.go. -/
def state.sFnSafeDeletionState (ch : chart.Ops χ κ φ) (s : systemState χ) (w : World κ φ) :
    Outcome χ κ φ :=
  let check := ch.CheckCRDOrphanResources s.chartConfig w.cluster
  let w := { w with calls := w.calls ++ [chart.Call.CheckCRDOrphanResources check] }
  match check with
  | some err =>
    -- warning state indicates that user intervention would fix it
    let s := s.setState State.StateWarning
    let updated := s.«instance».UpdateConditionFalse w.now
      ConditionType.ConditionTypeDeleted ConditionReason.ConditionReasonDeletionErr err
    let s := { s with «instance» := updated }
    { result := stopWithEventualError (some err), s := s, world := w }
  | none => deleteResourcesWithFilter ch s w []

end Steps

/-! ## The resolver (`utils.go`) -/

/-- The key of an object: namespace and name. -/
structure types.NamespacedName where
  Namespace : String
  Name : String
  deriving DecidableEq, Repr

/-- The reconcile request `ctrl.Request` of controller-runtime. -/
structure ctrl.Request where
  NamespacedName : types.NamespacedName
  deriving DecidableEq, Repr

/-- The two reads of the cluster object store that the resolver uses, as the spec's section 6
gives them: `Get` by key and `List` of all objects of the kind; either can fail. -/
structure client.Client where
  Get : types.NamespacedName → Except GoError v1alpha1.DockerRegistry
  List : Except GoError (List v1alpha1.DockerRegistry)

/-- One read of the object store. -/
inductive client.Call where
  | Get (key : types.NamespacedName)
  | List
  deriving DecidableEq, Repr

/-- Modelled from the spec: an object store holding the given objects, each identified by
namespace and name. `Get` returns the object with the key or a NotFound error, `List` returns
all objects in store order. -/
def client.storeClient (objs : List v1alpha1.DockerRegistry) : client.Client where
  Get := fun key =>
    match objs.find? (fun o => o.Namespace == key.Namespace && o.Name == key.Name) with
    | some o => .ok o
    | none => .error (.notFound ("dockerregistries \"" ++ key.Name ++ "\" not found"))
  List := .ok objs

open v1alpha1 in
/-- The function `GetServedDockerRegistry` of utils.go, with the reads it made. -/
def state.GetServedDockerRegistry (c : client.Client) :
    (Option DockerRegistry × Option GoError) × List client.Call :=
  match c.List with
  | .error err => ((none, some err), [client.Call.List])
  | .ok items =>
    match items.find? (fun item => !item.IsServedEmpty && item.Status.Served == Served.ServedTrue) with
    | some item => ((some item, none), [client.Call.List])
    | none => ((none, none), [client.Call.List])

open v1alpha1 in
/-- The function `GetDockerRegistryOrServed` of utils.go, with the reads it made. -/
def state.GetDockerRegistryOrServed (req : ctrl.Request) (c : client.Client) :
    (Option DockerRegistry × Option GoError) × List client.Call :=
  match c.Get req.NamespacedName with
  | .ok inst => ((some inst, none), [client.Call.Get req.NamespacedName])
  | .error err =>
    if !k8serrors.IsNotFound err then
      ((none, some (errors.Wrap err "while fetching dockerregistry instance")),
        [client.Call.Get req.NamespacedName])
    else
      let served := state.GetServedDockerRegistry c
      match served.1.2 with
      | some err =>
        ((none, some (errors.Wrap err "while fetching served dockerregistry instance")),
          client.Call.Get req.NamespacedName :: served.2)
      | none => ((served.1.1, none), client.Call.Get req.NamespacedName :: served.2)

/-! ## Observations used by the statements -/

open v1alpha1 in
/-- The status, reason and message of the `Deleted` condition of a resource, if it has one. -/
def v1alpha1.DockerRegistry.deletedCondition (d : DockerRegistry) :
    Option (ConditionStatus × ConditionReason × String) :=
  (findStatusCondition d.Status.Conditions ConditionType.ConditionTypeDeleted).map
    (fun c => (c.status, c.reason, c.message))

/-- The chart operations invoked between two worlds: the calls recorded after those of the
earlier world. -/
def state.World.callsSince {κ φ : Type} (after before : state.World κ φ) : List (chart.Call φ) :=
  after.calls.drop before.calls.length

/-! ## Concrete inputs -/

/-- A chart whose operations return fixed values and leave the cluster state as it is. -/
def state.fixedChart (check : Option GoError) (secrets : Option GoError × Bool)
    (rest : Option GoError) : chart.Ops Unit Nat String where
  CheckCRDOrphanResources := fun _ _ => check
  UninstallSecrets := fun _ _ k => (secrets, k)
  Uninstall := fun _ _ k => (rest, k)

/-- A chart over a cluster that counts the secrets still present: removing secrets takes one
of them away per call and is done once none is left; the rest is removed in one call. -/
def state.countingChart : chart.Ops Unit Nat String where
  CheckCRDOrphanResources := fun _ _ => none
  UninstallSecrets := fun _ _ k => ((none, decide (k = 0)), k - 1)
  Uninstall := fun _ _ k => (none, k)

/-- A resource in phase Ready with a stale `Deleted` condition and one other condition. -/
def state.sampleInstance : v1alpha1.DockerRegistry where
  Namespace := "kyma-system"
  Name := "default"
  Status :=
    { State := v1alpha1.State.StateReady
      Served := v1alpha1.Served.ServedTrue
      Conditions :=
        [ { type := v1alpha1.ConditionType.other "Installed",
            status := v1alpha1.ConditionStatus.True,
            reason := v1alpha1.ConditionReason.other "Installed",
            message := "installed", lastTransitionTime := 3 },
          { type := v1alpha1.ConditionType.ConditionTypeDeleted,
            status := v1alpha1.ConditionStatus.False,
            reason := v1alpha1.ConditionReason.ConditionReasonDeletionErr,
            message := "old failure", lastTransitionTime := 5 } ] }

/-- A state holding the sample resource. -/
def state.sampleState : state.systemState Unit where
  «instance» := state.sampleInstance
  chartConfig := ()

/-- A world with the given cluster state, no recorded call, an empty log and the clock at 7. -/
def state.sampleWorld (k : Nat) : state.World Nat String where
  cluster := k
  calls := []
  log := []
  now := 7

open v1alpha1 in
/-- The status of the `Deleted` condition of a resource, if it has one. -/
def v1alpha1.DockerRegistry.deletedStatus (d : DockerRegistry) : Option ConditionStatus :=
  d.deletedCondition.map (fun c => c.1)

/-- What the statements observe of an outcome: the returned triple, the phase and the status,
reason and message of the `Deleted` condition. The last-transition time is not part of it. -/
def state.Outcome.observed {χ κ φ : Type} (o : state.Outcome χ κ φ) :
    state.StepResult × v1alpha1.State ×
      Option (v1alpha1.ConditionStatus × v1alpha1.ConditionReason × String) :=
  (o.result, o.s.«instance».Status.State, o.s.«instance».deletedCondition)

/-- A store of three resources: "first" not served, "second" served, "third" with the served
mark unset. -/
def state.sampleStore : List v1alpha1.DockerRegistry :=
  [ { Namespace := "kyma-system", Name := "first",
      Status := { State := v1alpha1.State.StateWarning,
                  Served := v1alpha1.Served.ServedFalse, Conditions := [] } },
    { Namespace := "kyma-system", Name := "second",
      Status := { State := v1alpha1.State.StateReady,
                  Served := v1alpha1.Served.ServedTrue, Conditions := [] } },
    { Namespace := "default", Name := "third",
      Status := { State := v1alpha1.State.StateNone,
                  Served := v1alpha1.Served.ServedUnset, Conditions := [] } } ]

/-- The request for the resource "first" of the sample store. -/
def state.requestFirst : ctrl.Request where
  NamespacedName := { Namespace := "kyma-system", Name := "first" }

/-- The request for a resource that the sample store does not hold. -/
def state.requestMissing : ctrl.Request where
  NamespacedName := { Namespace := "kyma-system", Name := "absent" }

/-- A store of two resources, neither served: one marked not served, one with the mark unset. -/
def state.unservedStore : List v1alpha1.DockerRegistry :=
  [ { Namespace := "kyma-system", Name := "first",
      Status := { State := v1alpha1.State.StateWarning,
                  Served := v1alpha1.Served.ServedFalse, Conditions := [] } },
    { Namespace := "default", Name := "third",
      Status := { State := v1alpha1.State.StateNone,
                  Served := v1alpha1.Served.ServedUnset, Conditions := [] } } ]

/-- A client of a store that holds no object with the requested key and whose listing fails
with the given error. -/
def client.failingListClient (err : GoError) : client.Client where
  Get := fun key => .error (.notFound ("dockerregistries \"" ++ key.Name ++ "\" not found"))
  List := .error err

/-- A client whose `Get` fails with the given error and whose listing would succeed with the
given objects. -/
def client.failingGetClient (err : GoError) (objs : List v1alpha1.DockerRegistry) :
    client.Client where
  Get := fun _ => .error err
  List := .ok objs

open v1alpha1 in
/-- The number of entries of a condition type in a list of conditions. -/
def v1alpha1.countConditions (conds : List Condition) (t : ConditionType) : Nat :=
  (conds.filter (fun c => decide (c.type = t))).length

open v1alpha1 in
/-- The entries of every other condition type, in list order. -/
def v1alpha1.otherConditions (conds : List Condition) (t : ConditionType) : List Condition :=
  conds.filter (fun c => decide (c.type ≠ t))

open v1alpha1 in
/-- The condition types of the entries, in list order. -/
def v1alpha1.conditionTypes (conds : List Condition) : List ConditionType :=
  conds.map (fun c => c.type)

/-- One invocation of a function of delete.go, with the chart it runs against and, for
`deleteResourcesWithFilter`, the filters it is given. -/
inductive state.Invocation (χ κ φ : Type) where
  | sFnDeleteResources
  | sFnSafeDeletionState (ch : chart.Ops χ κ φ)
  | deleteResourcesWithFilter (ch : chart.Ops χ κ φ) (filterFuncs : List φ)

/-- The outcome of one invocation. -/
def state.invoke {χ κ φ : Type} (i : state.Invocation χ κ φ) (s : state.systemState χ)
    (w : state.World κ φ) : state.Outcome χ κ φ :=
  match i with
  | .sFnDeleteResources => state.sFnDeleteResources s w
  | .sFnSafeDeletionState ch => state.sFnSafeDeletionState ch s w
  | .deleteResourcesWithFilter ch filterFuncs =>
    state.deleteResourcesWithFilter ch s w filterFuncs

/-- A finite sequence of invocations, each run on the state and the world the one before it
left. -/
def state.run {χ κ φ : Type} :
    List (state.Invocation χ κ φ) → state.systemState χ → state.World κ φ →
      state.systemState χ × state.World κ φ
  | [], s, w => (s, w)
  | i :: rest, s, w => state.run rest (state.invoke i s w).s (state.invoke i s w).world

/-- The duration `time.Minute`, in nanoseconds. -/
def time.Minute : Int := 60 * time.Second

/-- The number of components of a returned triple that are present (not nil). -/
def state.presentCount (r : state.StepResult) : Nat :=
  (if r.1.isSome then 1 else 0) + (if r.2.1.isSome then 1 else 0) +
    (if r.2.2.isSome then 1 else 0)

/-! ## Lemmas on the condition helpers -/

open v1alpha1 in
theorem v1alpha1.find_setStatusCondition (conds : List Condition) (new : Condition) :
    (findStatusCondition (setStatusCondition conds new) new.type).map
      (fun c => (c.status, c.reason, c.message)) =
      some (new.status, new.reason, new.message) := by
  induction conds with
  | nil => simp [setStatusCondition, findStatusCondition]
  | cons c cs ih =>
    unfold setStatusCondition
    by_cases ht : c.type = new.type
    · by_cases hs : c.status = new.status
      · simp [findStatusCondition, ht, hs]
      · simp [findStatusCondition, ht, hs]
    · simp only [ht, if_false]
      simp only [findStatusCondition] at ih ⊢
      rw [List.find?_cons_of_neg _ (by simpa using ht)]
      exact ih

section StepLemmas

variable {χ κ φ : Type}

open v1alpha1 state

theorem state.deletedCondition_UpdateConditionUnknown (d : DockerRegistry) (now : Nat)
    (r : ConditionReason) (msg : String) :
    (d.UpdateConditionUnknown now ConditionType.ConditionTypeDeleted r msg).deletedCondition =
      some (ConditionStatus.Unknown, r, msg) := by
  simpa [DockerRegistry.UpdateConditionUnknown, DockerRegistry.deletedCondition] using
    find_setStatusCondition d.Status.Conditions
      { type := ConditionType.ConditionTypeDeleted, status := ConditionStatus.Unknown,
        reason := r, message := msg, lastTransitionTime := now }

theorem state.deletedCondition_UpdateConditionTrue (d : DockerRegistry) (now : Nat)
    (r : ConditionReason) (msg : String) :
    (d.UpdateConditionTrue now ConditionType.ConditionTypeDeleted r msg).deletedCondition =
      some (ConditionStatus.True, r, msg) := by
  simpa [DockerRegistry.UpdateConditionTrue, DockerRegistry.deletedCondition] using
    find_setStatusCondition d.Status.Conditions
      { type := ConditionType.ConditionTypeDeleted, status := ConditionStatus.True,
        reason := r, message := msg, lastTransitionTime := now }

theorem state.deletedCondition_UpdateConditionFalse (d : DockerRegistry) (now : Nat)
    (r : ConditionReason) (err : GoError) :
    (d.UpdateConditionFalse now ConditionType.ConditionTypeDeleted r err).deletedCondition =
      some (ConditionStatus.False, r, err.Error) := by
  simpa [DockerRegistry.UpdateConditionFalse, DockerRegistry.deletedCondition] using
    find_setStatusCondition d.Status.Conditions
      { type := ConditionType.ConditionTypeDeleted, status := ConditionStatus.False,
        reason := r, message := err.Error, lastTransitionTime := now }

/-- C1: for every state and world, `sFnDeleteResources` leaves the phase Deleting and the
`Deleted` condition Unknown with reason `ConditionReasonDeletion` and message "Uninstalling",
returns the next step `sFnSafeDeletionState` with no requeue directive and no error, and
touches nothing outside the process: no chart operation is recorded and the world is the one
it was given. -/
theorem state.sFnDeleteResources_spec (s : systemState χ) (w : World κ φ) :
    (sFnDeleteResources s w).s.«instance».Status.State = State.StateDeleting ∧
    (sFnDeleteResources s w).s.«instance».deletedCondition =
      some (ConditionStatus.Unknown, ConditionReason.ConditionReasonDeletion, "Uninstalling") ∧
    (sFnDeleteResources s w).result = (some stateFn.sFnSafeDeletionState, none, none) ∧
    (sFnDeleteResources s w).world.callsSince w = [] ∧
    (sFnDeleteResources s w).world = w := by
  refine ⟨?_, ?_, rfl, ?_, rfl⟩
  · simp [sFnDeleteResources, DockerRegistry.UpdateConditionUnknown, systemState.setState]
  · exact deletedCondition_UpdateConditionUnknown _ _ _ _
  · simp [sFnDeleteResources, World.callsSince]

/-- C2: when `CheckCRDOrphanResources` returns the error `e`, `sFnSafeDeletionState` leaves
the phase Warning and the `Deleted` condition False with reason `ConditionReasonDeletionErr`
and the text of `e` as message, and the error it returns is `e` itself. -/
theorem state.sFnSafeDeletionState_orphans (ch : chart.Ops χ κ φ) (s : systemState χ)
    (w : World κ φ) (e : GoError)
    (h : ch.CheckCRDOrphanResources s.chartConfig w.cluster = some e) :
    (sFnSafeDeletionState ch s w).s.«instance».Status.State = State.StateWarning ∧
    (sFnSafeDeletionState ch s w).s.«instance».deletedCondition =
      some (ConditionStatus.False, ConditionReason.ConditionReasonDeletionErr, e.Error) ∧
    (sFnSafeDeletionState ch s w).result.2.2 = some e := by
  refine ⟨?_, ?_, ?_⟩
  · simp [sFnSafeDeletionState, h, DockerRegistry.UpdateConditionFalse, systemState.setState]
  · simp only [sFnSafeDeletionState, h]
    exact deletedCondition_UpdateConditionFalse _ _ _ _
  · simp [sFnSafeDeletionState, h, stopWithEventualError]

/-- Witness of C2 at the error "dangling ingress". -/
theorem state.sFnSafeDeletionState_orphans_witness :
    (fixedChart (some (.plain "dangling ingress")) (none, true) none).CheckCRDOrphanResources
        sampleState.chartConfig (sampleWorld 0).cluster = some (.plain "dangling ingress") ∧
    (sFnSafeDeletionState (fixedChart (some (.plain "dangling ingress")) (none, true) none)
        sampleState (sampleWorld 0)).s.«instance».Status.State = State.StateWarning ∧
    (sFnSafeDeletionState (fixedChart (some (.plain "dangling ingress")) (none, true) none)
        sampleState (sampleWorld 0)).s.«instance».deletedCondition =
      some (ConditionStatus.False, ConditionReason.ConditionReasonDeletionErr,
        "dangling ingress") ∧
    (sFnSafeDeletionState (fixedChart (some (.plain "dangling ingress")) (none, true) none)
        sampleState (sampleWorld 0)).result.2.2 = some (.plain "dangling ingress") :=
  ⟨rfl, sFnSafeDeletionState_orphans
    (fixedChart (some (.plain "dangling ingress")) (none, true) none)
    sampleState (sampleWorld 0) (.plain "dangling ingress") rfl⟩

/-- C3: when `UninstallSecrets` returns no error and `done = false`,
`deleteResourcesWithFilter` returns no next step, no error and the directive "requeue after one
second"; the phase is Deleting and the `Deleted` condition is True with reason
`ConditionReasonDeletion` and message "Deleting secrets". -/
theorem state.deleteResourcesWithFilter_awaiting (ch : chart.Ops χ κ φ) (s : systemState χ)
    (w : World κ φ) (filterFuncs : List φ)
    (h : (ch.UninstallSecrets s.chartConfig filterFuncs w.cluster).1 = (none, false)) :
    (deleteResourcesWithFilter ch s w filterFuncs).result =
      (none, some { Requeue := false, RequeueAfter := time.Second }, none) ∧
    time.Second = 1000000000 ∧
    (deleteResourcesWithFilter ch s w filterFuncs).s.«instance».Status.State =
      State.StateDeleting ∧
    (deleteResourcesWithFilter ch s w filterFuncs).s.«instance».deletedCondition =
      some (ConditionStatus.True, ConditionReason.ConditionReasonDeletion,
        "Deleting secrets") := by
  rcases hs : ch.UninstallSecrets s.chartConfig filterFuncs w.cluster with ⟨⟨e, d⟩, k⟩
  rw [hs] at h
  obtain ⟨rfl, rfl⟩ := Prod.mk.inj h
  refine ⟨?_, rfl, ?_, ?_⟩
  · simp [deleteResourcesWithFilter, hs, awaitingSecretsRemoval, requeueAfter]
  · simp [deleteResourcesWithFilter, hs, awaitingSecretsRemoval,
      DockerRegistry.UpdateConditionTrue, systemState.setState]
  · simp only [deleteResourcesWithFilter, hs, awaitingSecretsRemoval]
    exact deletedCondition_UpdateConditionTrue _ _ _ _

/-- Witness of C3: one secret is still present, so the secrets removal is not done. -/
theorem state.deleteResourcesWithFilter_awaiting_witness :
    (countingChart.UninstallSecrets sampleState.chartConfig ["keep"]
        (sampleWorld 1).cluster).1 = (none, false) ∧
    (deleteResourcesWithFilter countingChart sampleState (sampleWorld 1) ["keep"]).result =
      (none, some { Requeue := false, RequeueAfter := 1000000000 }, none) ∧
    (deleteResourcesWithFilter countingChart sampleState (sampleWorld 1)
        ["keep"]).s.«instance».deletedCondition =
      some (ConditionStatus.True, ConditionReason.ConditionReasonDeletion,
        "Deleting secrets") :=
  have h := deleteResourcesWithFilter_awaiting countingChart sampleState (sampleWorld 1)
    ["keep"] rfl
  ⟨rfl, h.1, h.2.2.2⟩

/-- C4: when `UninstallSecrets` returns no error and `done = true` and the `Uninstall` that
follows returns no error, `deleteResourcesWithFilter` leaves the phase Deleting and the
`Deleted` condition True with reason `ConditionReasonDeleted` (message "DockerRegistry module
deleted"), and returns the next step `sFnRemoveFinalizer` with no requeue directive and no
error. -/
theorem state.deleteResourcesWithFilter_deleted (ch : chart.Ops χ κ φ) (s : systemState χ)
    (w : World κ φ) (filterFuncs : List φ)
    (hs : (ch.UninstallSecrets s.chartConfig filterFuncs w.cluster).1 = (none, true))
    (hu : (ch.Uninstall s.chartConfig filterFuncs
      (ch.UninstallSecrets s.chartConfig filterFuncs w.cluster).2).1 = none) :
    (deleteResourcesWithFilter ch s w filterFuncs).s.«instance».Status.State =
      State.StateDeleting ∧
    (deleteResourcesWithFilter ch s w filterFuncs).s.«instance».deletedCondition =
      some (ConditionStatus.True, ConditionReason.ConditionReasonDeleted,
        "DockerRegistry module deleted") ∧
    (deleteResourcesWithFilter ch s w filterFuncs).result =
      (some stateFn.sFnRemoveFinalizer, none, none) := by
  rcases hs' : ch.UninstallSecrets s.chartConfig filterFuncs w.cluster with ⟨⟨e, d⟩, k⟩
  rw [hs'] at hs hu
  obtain ⟨rfl, rfl⟩ := Prod.mk.inj hs
  simp only at hu
  refine ⟨?_, ?_, ?_⟩
  · simp [deleteResourcesWithFilter, hs', hu, DockerRegistry.UpdateConditionTrue,
      systemState.setState]
  · simp only [deleteResourcesWithFilter, hs', hu, Bool.not_true, Bool.false_eq_true, if_false]
    exact deletedCondition_UpdateConditionTrue _ _ _ _
  · simp [deleteResourcesWithFilter, hs', hu, nextState]

/-- Witness of C4: no secret is left, so both removals succeed. -/
theorem state.deleteResourcesWithFilter_deleted_witness :
    (countingChart.UninstallSecrets sampleState.chartConfig []
        (sampleWorld 0).cluster).1 = (none, true) ∧
    (deleteResourcesWithFilter countingChart sampleState (sampleWorld 0)
        []).s.«instance».Status.State = State.StateDeleting ∧
    (deleteResourcesWithFilter countingChart sampleState (sampleWorld 0)
        []).s.«instance».deletedCondition =
      some (ConditionStatus.True, ConditionReason.ConditionReasonDeleted,
        "DockerRegistry module deleted") ∧
    (deleteResourcesWithFilter countingChart sampleState (sampleWorld 0) []).result =
      (some stateFn.sFnRemoveFinalizer, none, none) :=
  ⟨rfl, deleteResourcesWithFilter_deleted countingChart sampleState (sampleWorld 0) [] rfl rfl⟩

/-- C5: when `UninstallSecrets` returns the error `e` (whatever its `done` flag), or returns
no error with `done = true` and `Uninstall` then returns `e`, `deleteResourcesWithFilter`
leaves the phase Error and the `Deleted` condition False with reason
`ConditionReasonDeletionErr` and the text of `e` as message, returns no next step, and the
error it returns is `e`. -/
theorem state.deleteResourcesWithFilter_error (ch : chart.Ops χ κ φ) (s : systemState χ)
    (w : World κ φ) (filterFuncs : List φ) (e : GoError)
    (h : (ch.UninstallSecrets s.chartConfig filterFuncs w.cluster).1.1 = some e ∨
      ((ch.UninstallSecrets s.chartConfig filterFuncs w.cluster).1 = (none, true) ∧
        (ch.Uninstall s.chartConfig filterFuncs
          (ch.UninstallSecrets s.chartConfig filterFuncs w.cluster).2).1 = some e)) :
    (deleteResourcesWithFilter ch s w filterFuncs).s.«instance».Status.State =
      State.StateError ∧
    (deleteResourcesWithFilter ch s w filterFuncs).s.«instance».deletedCondition =
      some (ConditionStatus.False, ConditionReason.ConditionReasonDeletionErr, e.Error) ∧
    (deleteResourcesWithFilter ch s w filterFuncs).result.1 = none ∧
    (deleteResourcesWithFilter ch s w filterFuncs).result.2.2 = some e := by
  rcases hs' : ch.UninstallSecrets s.chartConfig filterFuncs w.cluster with ⟨⟨e', d⟩, k⟩
  rw [hs'] at h
  rcases h with h | ⟨hs, hu⟩
  · simp only at h
    subst h
    refine ⟨?_, ?_, ?_, ?_⟩
    · simp [deleteResourcesWithFilter, hs', uninstallSecretsError,
        DockerRegistry.UpdateConditionFalse, systemState.setState]
    · simp only [deleteResourcesWithFilter, hs', uninstallSecretsError]
      exact deletedCondition_UpdateConditionFalse _ _ _ _
    · simp [deleteResourcesWithFilter, hs', uninstallSecretsError, stopWithEventualError]
    · simp [deleteResourcesWithFilter, hs', uninstallSecretsError, stopWithEventualError]
  · obtain ⟨rfl, rfl⟩ := Prod.mk.inj hs
    simp only at hu
    refine ⟨?_, ?_, ?_, ?_⟩
    · simp [deleteResourcesWithFilter, hs', hu, uninstallResourcesError,
        DockerRegistry.UpdateConditionFalse, systemState.setState]
    · simp only [deleteResourcesWithFilter, hs', hu, uninstallResourcesError, Bool.not_true,
        Bool.false_eq_true, if_false]
      exact deletedCondition_UpdateConditionFalse _ _ _ _
    · simp [deleteResourcesWithFilter, hs', hu, uninstallResourcesError,
        stopWithEventualError]
    · simp [deleteResourcesWithFilter, hs', hu, uninstallResourcesError,
        stopWithEventualError]

/-- Witness of C5, once for each failing operation: the secrets removal fails with "forbidden"
while reporting `done = true`, and the removal of the rest fails with "timeout". -/
theorem state.deleteResourcesWithFilter_error_witness :
    ((deleteResourcesWithFilter (fixedChart none (some (.plain "forbidden"), true) none)
        sampleState (sampleWorld 2) ["keep"]).s.«instance».Status.State = State.StateError ∧
      (deleteResourcesWithFilter (fixedChart none (some (.plain "forbidden"), true) none)
        sampleState (sampleWorld 2) ["keep"]).s.«instance».deletedCondition =
        some (ConditionStatus.False, ConditionReason.ConditionReasonDeletionErr, "forbidden") ∧
      (deleteResourcesWithFilter (fixedChart none (some (.plain "forbidden"), true) none)
        sampleState (sampleWorld 2) ["keep"]).result.1 = none ∧
      (deleteResourcesWithFilter (fixedChart none (some (.plain "forbidden"), true) none)
        sampleState (sampleWorld 2) ["keep"]).result.2.2 = some (.plain "forbidden")) ∧
    ((deleteResourcesWithFilter (fixedChart none (none, true) (some (.plain "timeout")))
        sampleState (sampleWorld 2) []).s.«instance».Status.State = State.StateError ∧
      (deleteResourcesWithFilter (fixedChart none (none, true) (some (.plain "timeout")))
        sampleState (sampleWorld 2) []).s.«instance».deletedCondition =
        some (ConditionStatus.False, ConditionReason.ConditionReasonDeletionErr, "timeout") ∧
      (deleteResourcesWithFilter (fixedChart none (none, true) (some (.plain "timeout")))
        sampleState (sampleWorld 2) []).result.1 = none ∧
      (deleteResourcesWithFilter (fixedChart none (none, true) (some (.plain "timeout")))
        sampleState (sampleWorld 2) []).result.2.2 = some (.plain "timeout")) :=
  ⟨deleteResourcesWithFilter_error (fixedChart none (some (.plain "forbidden"), true) none)
      sampleState (sampleWorld 2) ["keep"] (.plain "forbidden") (Or.inl rfl),
    deleteResourcesWithFilter_error (fixedChart none (none, true) (some (.plain "timeout")))
      sampleState (sampleWorld 2) [] (.plain "timeout") (Or.inr ⟨rfl, rfl⟩)⟩

/-- C6: secrets first. The chart operations one execution of `deleteResourcesWithFilter`
invokes are, in order, `UninstallSecrets` with the filters it was given and then, exactly when
that call returned no error and `done = true`, one `Uninstall` with the same filters run on the
cluster state the secrets removal left. So `Uninstall` is invoked at most once, and it is
invoked if and only if `UninstallSecrets` returned `(nil, true)` before it. -/
theorem state.deleteResourcesWithFilter_calls (ch : chart.Ops χ κ φ) (s : systemState χ)
    (w : World κ φ) (filterFuncs : List φ) :
    (deleteResourcesWithFilter ch s w filterFuncs).world.calls =
      w.calls ++ (deleteResourcesWithFilter ch s w filterFuncs).world.callsSince w ∧
    (deleteResourcesWithFilter ch s w filterFuncs).world.callsSince w =
      chart.Call.UninstallSecrets filterFuncs
          (ch.UninstallSecrets s.chartConfig filterFuncs w.cluster).1.1
          (ch.UninstallSecrets s.chartConfig filterFuncs w.cluster).1.2 ::
        (if (ch.UninstallSecrets s.chartConfig filterFuncs w.cluster).1 = (none, true) then
          [chart.Call.Uninstall filterFuncs (ch.Uninstall s.chartConfig filterFuncs
            (ch.UninstallSecrets s.chartConfig filterFuncs w.cluster).2).1]
        else []) ∧
    (((deleteResourcesWithFilter ch s w filterFuncs).world.callsSince w).filter
      chart.Call.isUninstall).length ≤ 1 ∧
    ((∃ c ∈ (deleteResourcesWithFilter ch s w filterFuncs).world.callsSince w,
        c.isUninstall = true) ↔
      (ch.UninstallSecrets s.chartConfig filterFuncs w.cluster).1 = (none, true)) := by
  rcases hs' : ch.UninstallSecrets s.chartConfig filterFuncs w.cluster with ⟨⟨e, d⟩, k⟩
  rcases hu : ch.Uninstall s.chartConfig filterFuncs k with ⟨u, k'⟩
  cases e <;> cases d <;> cases u <;>
    simp [deleteResourcesWithFilter, hs', hu, World.callsSince, uninstallSecretsError,
      uninstallResourcesError, awaitingSecretsRemoval, chart.Call.isUninstall]

/-- C7: orphans block deletion. When `CheckCRDOrphanResources` returns an error,
`sFnSafeDeletionState` invokes neither `UninstallSecrets` nor `Uninstall` (the only chart
operation of the execution is the check) and the cluster-side chart state is the one it was
given. When the check returns no error, the returned triple, the state, the cluster and the log
are exactly those of `deleteResourcesWithFilter` called with the empty filter list, and the
chart operations invoked are the check followed by those of that call. -/
theorem state.sFnSafeDeletionState_gate (ch : chart.Ops χ κ φ) (s : systemState χ)
    (w : World κ φ) :
    (∀ e, ch.CheckCRDOrphanResources s.chartConfig w.cluster = some e →
      (sFnSafeDeletionState ch s w).world.callsSince w =
        [chart.Call.CheckCRDOrphanResources (some e)] ∧
      (∀ c ∈ (sFnSafeDeletionState ch s w).world.callsSince w,
        c.isUninstallSecrets = false ∧ c.isUninstall = false) ∧
      (sFnSafeDeletionState ch s w).world.cluster = w.cluster) ∧
    (ch.CheckCRDOrphanResources s.chartConfig w.cluster = none →
      (sFnSafeDeletionState ch s w).result = (deleteResourcesWithFilter ch s w []).result ∧
      (sFnSafeDeletionState ch s w).s = (deleteResourcesWithFilter ch s w []).s ∧
      (sFnSafeDeletionState ch s w).world.cluster =
        (deleteResourcesWithFilter ch s w []).world.cluster ∧
      (sFnSafeDeletionState ch s w).world.log =
        (deleteResourcesWithFilter ch s w []).world.log ∧
      (sFnSafeDeletionState ch s w).world.callsSince w =
        chart.Call.CheckCRDOrphanResources none ::
          (deleteResourcesWithFilter ch s w []).world.callsSince w) := by
  constructor
  · intro e h
    simp [sFnSafeDeletionState, h, World.callsSince, chart.Call.isUninstall,
      chart.Call.isUninstallSecrets]
  · intro h
    rcases hs' : ch.UninstallSecrets s.chartConfig [] w.cluster with ⟨⟨e, d⟩, k⟩
    rcases hu : ch.Uninstall s.chartConfig [] k with ⟨u, k'⟩
    cases e <;> cases d <;> cases u <;>
      simp [sFnSafeDeletionState, h, deleteResourcesWithFilter, hs', hu, World.callsSince,
        uninstallSecretsError, uninstallResourcesError, awaitingSecretsRemoval]

/-- Witness of C7: with the check failing on "dangling ingress" the only chart operation is
the check; with the check passing on a cluster with no secret left the step is
`deleteResourcesWithFilter` with no filter. -/
theorem state.sFnSafeDeletionState_gate_witness :
    ((sFnSafeDeletionState (fixedChart (some (.plain "dangling ingress")) (none, true) none)
        sampleState (sampleWorld 4)).world.callsSince (sampleWorld 4) =
        [chart.Call.CheckCRDOrphanResources (some (.plain "dangling ingress"))] ∧
      (sFnSafeDeletionState (fixedChart (some (.plain "dangling ingress")) (none, true) none)
        sampleState (sampleWorld 4)).world.cluster = 4) ∧
    ((sFnSafeDeletionState countingChart sampleState (sampleWorld 0)).result =
        (deleteResourcesWithFilter countingChart sampleState (sampleWorld 0) []).result ∧
      (sFnSafeDeletionState countingChart sampleState (sampleWorld 0)).s =
        (deleteResourcesWithFilter countingChart sampleState (sampleWorld 0) []).s) :=
  have h1 := (sFnSafeDeletionState_gate
    (fixedChart (some (.plain "dangling ingress")) (none, true) none)
    sampleState (sampleWorld 4)).1 (.plain "dangling ingress") rfl
  have h2 := (sFnSafeDeletionState_gate countingChart sampleState (sampleWorld 0)).2 rfl
  ⟨⟨h1.1, h1.2.2⟩, ⟨h2.1, h2.2.1⟩⟩

theorem state.observed_sFnDeleteResources (s : systemState χ) (w : World κ φ) :
    (sFnDeleteResources s w).observed =
      ((some stateFn.sFnSafeDeletionState, none, none), State.StateDeleting,
        some (ConditionStatus.Unknown, ConditionReason.ConditionReasonDeletion,
          "Uninstalling")) := by
  simp only [Outcome.observed, sFnDeleteResources, deletedCondition_UpdateConditionUnknown]
  simp [DockerRegistry.UpdateConditionUnknown, systemState.setState, nextState]

theorem state.observed_uninstallSecretsError (s : systemState χ) (w : World κ φ)
    (e : GoError) :
    (uninstallSecretsError s w e).observed =
      ((none, none, some e), State.StateError,
        some (ConditionStatus.False, ConditionReason.ConditionReasonDeletionErr, e.Error)) := by
  simp only [Outcome.observed, uninstallSecretsError, deletedCondition_UpdateConditionFalse]
  simp [DockerRegistry.UpdateConditionFalse, systemState.setState, stopWithEventualError]

theorem state.observed_uninstallResourcesError (s : systemState χ) (w : World κ φ)
    (e : GoError) :
    (uninstallResourcesError s w e).observed =
      ((none, none, some e), State.StateError,
        some (ConditionStatus.False, ConditionReason.ConditionReasonDeletionErr, e.Error)) := by
  simp only [Outcome.observed, uninstallResourcesError, deletedCondition_UpdateConditionFalse]
  simp [DockerRegistry.UpdateConditionFalse, systemState.setState, stopWithEventualError]

theorem state.observed_awaitingSecretsRemoval (s : systemState χ) (w : World κ φ) :
    (awaitingSecretsRemoval s w).observed =
      ((none, some { Requeue := false, RequeueAfter := time.Second }, none),
        State.StateDeleting,
        some (ConditionStatus.True, ConditionReason.ConditionReasonDeletion,
          "Deleting secrets")) := by
  simp only [Outcome.observed, awaitingSecretsRemoval, deletedCondition_UpdateConditionTrue]
  simp [DockerRegistry.UpdateConditionTrue, systemState.setState, requeueAfter]

/-- What `deleteResourcesWithFilter` leaves to observe, by the values the chart operations
return. -/
theorem state.observed_deleteResourcesWithFilter (ch : chart.Ops χ κ φ) (s : systemState χ)
    (w : World κ φ) (filterFuncs : List φ) :
    (deleteResourcesWithFilter ch s w filterFuncs).observed =
      match (ch.UninstallSecrets s.chartConfig filterFuncs w.cluster).1 with
      | (some e, _) =>
        ((none, none, some e), State.StateError,
          some (ConditionStatus.False, ConditionReason.ConditionReasonDeletionErr, e.Error))
      | (none, false) =>
        ((none, some { Requeue := false, RequeueAfter := time.Second }, none),
          State.StateDeleting,
          some (ConditionStatus.True, ConditionReason.ConditionReasonDeletion,
            "Deleting secrets"))
      | (none, true) =>
        match (ch.Uninstall s.chartConfig filterFuncs
          (ch.UninstallSecrets s.chartConfig filterFuncs w.cluster).2).1 with
        | some e =>
          ((none, none, some e), State.StateError,
            some (ConditionStatus.False, ConditionReason.ConditionReasonDeletionErr, e.Error))
        | none =>
          ((some stateFn.sFnRemoveFinalizer, none, none), State.StateDeleting,
            some (ConditionStatus.True, ConditionReason.ConditionReasonDeleted,
              "DockerRegistry module deleted")) := by
  rcases hs' : ch.UninstallSecrets s.chartConfig filterFuncs w.cluster with ⟨⟨e, d⟩, k⟩
  rcases hu : ch.Uninstall s.chartConfig filterFuncs k with ⟨u, k'⟩
  cases e with
  | some e =>
    simp only [deleteResourcesWithFilter, hs']
    exact observed_uninstallSecretsError _ _ _
  | none =>
    cases d with
    | false =>
      simp only [deleteResourcesWithFilter, hs', Bool.not_false, if_true]
      exact observed_awaitingSecretsRemoval _ _
    | true =>
      cases u with
      | some e =>
        simp only [deleteResourcesWithFilter, hs', hu, Bool.not_true, Bool.false_eq_true,
          if_false]
        exact observed_uninstallResourcesError _ _ _
      | none =>
        simp only [deleteResourcesWithFilter, hs', hu, Bool.not_true, Bool.false_eq_true,
          if_false, Outcome.observed, deletedCondition_UpdateConditionTrue]
        simp [DockerRegistry.UpdateConditionTrue, systemState.setState, nextState]

/-- What `sFnSafeDeletionState` leaves to observe, by the values the chart operations
return. -/
theorem state.observed_sFnSafeDeletionState (ch : chart.Ops χ κ φ) (s : systemState χ)
    (w : World κ φ) :
    (sFnSafeDeletionState ch s w).observed =
      match ch.CheckCRDOrphanResources s.chartConfig w.cluster with
      | some e =>
        ((none, none, some e), State.StateWarning,
          some (ConditionStatus.False, ConditionReason.ConditionReasonDeletionErr, e.Error))
      | none => (deleteResourcesWithFilter ch s w []).observed := by
  cases h : ch.CheckCRDOrphanResources s.chartConfig w.cluster with
  | some e =>
    simp only [sFnSafeDeletionState, h, Outcome.observed,
      deletedCondition_UpdateConditionFalse]
    simp [DockerRegistry.UpdateConditionFalse, systemState.setState, stopWithEventualError]
  | none =>
    have h1 := observed_deleteResourcesWithFilter ch s w []
    have h2 := observed_deleteResourcesWithFilter ch s
      { w with calls := w.calls ++ [chart.Call.CheckCRDOrphanResources none] } []
    simp only [sFnSafeDeletionState, h]
    rw [h1]
    exact h2

/-- The phase and the status of the `Deleted` condition that `deleteResourcesWithFilter`
leaves are one of three pairs. -/
theorem state.pairs_deleteResourcesWithFilter (ch : chart.Ops χ κ φ) (s : systemState χ)
    (w : World κ φ) (filterFuncs : List φ) :
    ((deleteResourcesWithFilter ch s w filterFuncs).s.«instance».Status.State,
        (deleteResourcesWithFilter ch s w filterFuncs).s.«instance».deletedStatus) =
        (State.StateDeleting, some ConditionStatus.True) ∨
      ((deleteResourcesWithFilter ch s w filterFuncs).s.«instance».Status.State,
        (deleteResourcesWithFilter ch s w filterFuncs).s.«instance».deletedStatus) =
        (State.StateError, some ConditionStatus.False) := by
  have h := observed_deleteResourcesWithFilter ch s w filterFuncs
  rcases hs' : ch.UninstallSecrets s.chartConfig filterFuncs w.cluster with ⟨⟨e, d⟩, k⟩
  rcases hu : ch.Uninstall s.chartConfig filterFuncs k with ⟨u, k'⟩
  rw [hs'] at h
  cases e <;> cases d <;> cases u <;>
    simp_all [Outcome.observed, DockerRegistry.deletedStatus]

/-- C8: after `sFnDeleteResources`, after `sFnSafeDeletionState` and after
`deleteResourcesWithFilter`, whatever the state before and whatever the chart operations
return: the phase Deleting implies that the `Deleted` condition is Unknown or True; the
`Deleted` condition False implies that the phase is Warning or Error; and the step has set
both, the pair being (Deleting, Unknown), (Deleting, True), (Warning, False) or
(Error, False). -/
theorem state.phase_condition_consistent (ch : chart.Ops χ κ φ) (s : systemState χ)
    (w : World κ φ) (filterFuncs : List φ) :
    ∀ o ∈ [sFnDeleteResources s w, sFnSafeDeletionState ch s w,
        deleteResourcesWithFilter ch s w filterFuncs],
      (o.s.«instance».Status.State = State.StateDeleting →
        o.s.«instance».deletedStatus = some ConditionStatus.Unknown ∨
        o.s.«instance».deletedStatus = some ConditionStatus.True) ∧
      (o.s.«instance».deletedStatus = some ConditionStatus.False →
        o.s.«instance».Status.State = State.StateWarning ∨
        o.s.«instance».Status.State = State.StateError) ∧
      ((o.s.«instance».Status.State, o.s.«instance».deletedStatus) =
          (State.StateDeleting, some ConditionStatus.Unknown) ∨
        (o.s.«instance».Status.State, o.s.«instance».deletedStatus) =
          (State.StateDeleting, some ConditionStatus.True) ∨
        (o.s.«instance».Status.State, o.s.«instance».deletedStatus) =
          (State.StateWarning, some ConditionStatus.False) ∨
        (o.s.«instance».Status.State, o.s.«instance».deletedStatus) =
          (State.StateError, some ConditionStatus.False)) := by
  have key : ∀ o : Outcome χ κ φ,
      ((o.s.«instance».Status.State, o.s.«instance».deletedStatus) =
          (State.StateDeleting, some ConditionStatus.Unknown) ∨
        (o.s.«instance».Status.State, o.s.«instance».deletedStatus) =
          (State.StateDeleting, some ConditionStatus.True) ∨
        (o.s.«instance».Status.State, o.s.«instance».deletedStatus) =
          (State.StateWarning, some ConditionStatus.False) ∨
        (o.s.«instance».Status.State, o.s.«instance».deletedStatus) =
          (State.StateError, some ConditionStatus.False)) →
      (o.s.«instance».Status.State = State.StateDeleting →
        o.s.«instance».deletedStatus = some ConditionStatus.Unknown ∨
        o.s.«instance».deletedStatus = some ConditionStatus.True) ∧
      (o.s.«instance».deletedStatus = some ConditionStatus.False →
        o.s.«instance».Status.State = State.StateWarning ∨
        o.s.«instance».Status.State = State.StateError) ∧
      ((o.s.«instance».Status.State, o.s.«instance».deletedStatus) =
          (State.StateDeleting, some ConditionStatus.Unknown) ∨
        (o.s.«instance».Status.State, o.s.«instance».deletedStatus) =
          (State.StateDeleting, some ConditionStatus.True) ∨
        (o.s.«instance».Status.State, o.s.«instance».deletedStatus) =
          (State.StateWarning, some ConditionStatus.False) ∨
        (o.s.«instance».Status.State, o.s.«instance».deletedStatus) =
          (State.StateError, some ConditionStatus.False)) := by
    intro o h
    refine ⟨?_, ?_, h⟩
    · intro hd
      rcases h with h | h | h | h <;> simp_all
    · intro hf
      rcases h with h | h | h | h <;> simp_all
  intro o ho
  apply key
  simp only [List.mem_cons, List.mem_singleton, List.mem_nil_iff, or_false] at ho
  rcases ho with rfl | rfl | rfl
  · have h := observed_sFnDeleteResources (κ := κ) (φ := φ) s w
    left
    simp_all [Outcome.observed, DockerRegistry.deletedStatus]
  · have h := observed_sFnSafeDeletionState ch s w
    cases hc : ch.CheckCRDOrphanResources s.chartConfig w.cluster with
    | some e =>
      rw [hc] at h
      right; right; left
      simp_all [Outcome.observed, DockerRegistry.deletedStatus]
    | none =>
      rw [hc] at h
      have h' := pairs_deleteResourcesWithFilter ch s w []
      simp only [Outcome.observed, Prod.mk.injEq] at h
      simp only [DockerRegistry.deletedStatus] at h' ⊢
      rw [h.2.1, h.2.2]
      rcases h' with h' | h'
      · right; left; exact h'
      · right; right; right; exact h'
  · rcases pairs_deleteResourcesWithFilter ch s w filterFuncs with h' | h'
    · right; left; exact h'
    · right; right; right; exact h'

/-- Witness of C8 at the outcome of `deleteResourcesWithFilter` on a cluster with one secret
left, from a resource whose `Deleted` condition was False: the step leaves the phase Deleting
with the condition True. -/
theorem state.phase_condition_consistent_witness :
    ((deleteResourcesWithFilter countingChart sampleState (sampleWorld 1)
        ["keep"]).s.«instance».Status.State = State.StateDeleting →
      (deleteResourcesWithFilter countingChart sampleState (sampleWorld 1)
        ["keep"]).s.«instance».deletedStatus = some ConditionStatus.Unknown ∨
      (deleteResourcesWithFilter countingChart sampleState (sampleWorld 1)
        ["keep"]).s.«instance».deletedStatus = some ConditionStatus.True) ∧
    ((deleteResourcesWithFilter countingChart sampleState (sampleWorld 1)
        ["keep"]).s.«instance».deletedStatus = some ConditionStatus.False →
      (deleteResourcesWithFilter countingChart sampleState (sampleWorld 1)
        ["keep"]).s.«instance».Status.State = State.StateWarning ∨
      (deleteResourcesWithFilter countingChart sampleState (sampleWorld 1)
        ["keep"]).s.«instance».Status.State = State.StateError) ∧
    sampleState.«instance».deletedStatus = some ConditionStatus.False ∧
    ((deleteResourcesWithFilter countingChart sampleState (sampleWorld 1)
        ["keep"]).s.«instance».Status.State,
      (deleteResourcesWithFilter countingChart sampleState (sampleWorld 1)
        ["keep"]).s.«instance».deletedStatus) =
      (State.StateDeleting, some ConditionStatus.True) :=
  have h := phase_condition_consistent countingChart sampleState (sampleWorld 1) ["keep"]
    (deleteResourcesWithFilter countingChart sampleState (sampleWorld 1) ["keep"])
    (List.mem_cons_of_mem _ (List.mem_cons_of_mem _ (List.mem_singleton.2 rfl)))
  ⟨h.1, h.2.1, by decide, by decide⟩

/-- The chart operations one execution of `sFnSafeDeletionState` invokes, with their return
values, together with what the execution leaves to observe: one of five courses. -/
theorem state.course_sFnSafeDeletionState (ch : chart.Ops χ κ φ) (s : systemState χ)
    (w : World κ φ) :
    (∃ e, (sFnSafeDeletionState ch s w).world.callsSince w =
        [chart.Call.CheckCRDOrphanResources (some e)] ∧
      (sFnSafeDeletionState ch s w).observed = ((none, none, some e), State.StateWarning,
        some (ConditionStatus.False, ConditionReason.ConditionReasonDeletionErr, e.Error))) ∨
    (∃ e d, (sFnSafeDeletionState ch s w).world.callsSince w =
        [chart.Call.CheckCRDOrphanResources none, chart.Call.UninstallSecrets [] (some e) d] ∧
      (sFnSafeDeletionState ch s w).observed = ((none, none, some e), State.StateError,
        some (ConditionStatus.False, ConditionReason.ConditionReasonDeletionErr, e.Error))) ∨
    ((sFnSafeDeletionState ch s w).world.callsSince w =
        [chart.Call.CheckCRDOrphanResources none, chart.Call.UninstallSecrets [] none false] ∧
      (sFnSafeDeletionState ch s w).observed =
        ((none, some { Requeue := false, RequeueAfter := time.Second }, none),
          State.StateDeleting,
          some (ConditionStatus.True, ConditionReason.ConditionReasonDeletion,
            "Deleting secrets"))) ∨
    (∃ e, (sFnSafeDeletionState ch s w).world.callsSince w =
        [chart.Call.CheckCRDOrphanResources none, chart.Call.UninstallSecrets [] none true,
          chart.Call.Uninstall [] (some e)] ∧
      (sFnSafeDeletionState ch s w).observed = ((none, none, some e), State.StateError,
        some (ConditionStatus.False, ConditionReason.ConditionReasonDeletionErr, e.Error))) ∨
    ((sFnSafeDeletionState ch s w).world.callsSince w =
        [chart.Call.CheckCRDOrphanResources none, chart.Call.UninstallSecrets [] none true,
          chart.Call.Uninstall [] none] ∧
      (sFnSafeDeletionState ch s w).observed =
        ((some stateFn.sFnRemoveFinalizer, none, none), State.StateDeleting,
          some (ConditionStatus.True, ConditionReason.ConditionReasonDeleted,
            "DockerRegistry module deleted"))) := by
  have h := observed_sFnSafeDeletionState ch s w
  have h' := observed_deleteResourcesWithFilter ch s w []
  cases hc : ch.CheckCRDOrphanResources s.chartConfig w.cluster with
  | some e =>
    rw [hc] at h
    left
    exact ⟨e, by simp [sFnSafeDeletionState, hc, World.callsSince], h⟩
  | none =>
    rw [hc] at h
    rw [h']  at h
    right
    rcases hs' : ch.UninstallSecrets s.chartConfig [] w.cluster with ⟨⟨e, d⟩, k⟩
    rcases hu : ch.Uninstall s.chartConfig [] k with ⟨u, k'⟩
    rw [hs'] at h
    cases e with
    | some e =>
      left
      exact ⟨e, d, by simp [sFnSafeDeletionState, hc, deleteResourcesWithFilter, hs',
        World.callsSince, uninstallSecretsError], h⟩
    | none =>
      right
      cases d with
      | false =>
        left
        exact ⟨by simp [sFnSafeDeletionState, hc, deleteResourcesWithFilter, hs',
          World.callsSince, awaitingSecretsRemoval], h⟩
      | true =>
        right
        simp only [hu] at h
        cases u with
        | some e =>
          left
          exact ⟨e, by simp [sFnSafeDeletionState, hc, deleteResourcesWithFilter, hs', hu,
            World.callsSince, uninstallResourcesError], h⟩
        | none =>
          right
          exact ⟨by simp [sFnSafeDeletionState, hc, deleteResourcesWithFilter, hs', hu,
            World.callsSince], h⟩

/-- C9: idempotence of `sFnSafeDeletionState`. First, what the step leaves to observe (the
returned triple, the phase and the status, reason and message of the `Deleted` condition)
depends only on what the chart operations return during the execution: two executions, from
any two states and worlds, in which the same operations are invoked with the same return values
leave the same observation. Second, when the check passes, the secrets removal is done and the
uninstall succeeds in an invocation and again in the invocation that follows it on the state and
world the first one left, the second invocation leaves the same observation as the first: the
next step `sFnRemoveFinalizer` with no directive and no error, the phase Deleting and the
`Deleted` condition True with reason `ConditionReasonDeleted`. -/
theorem state.sFnSafeDeletionState_idempotent (ch : chart.Ops χ κ φ) (s : systemState χ)
    (w : World κ φ) :
    (∀ (ch' : chart.Ops χ κ φ) (s' : systemState χ) (w' : World κ φ),
      (sFnSafeDeletionState ch' s' w').world.callsSince w' =
        (sFnSafeDeletionState ch s w).world.callsSince w →
      (sFnSafeDeletionState ch' s' w').observed = (sFnSafeDeletionState ch s w).observed) ∧
    (ch.CheckCRDOrphanResources s.chartConfig w.cluster = none →
      (ch.UninstallSecrets s.chartConfig [] w.cluster).1 = (none, true) →
      (ch.Uninstall s.chartConfig [] (ch.UninstallSecrets s.chartConfig [] w.cluster).2).1 =
        none →
      ch.CheckCRDOrphanResources (sFnSafeDeletionState ch s w).s.chartConfig
        (sFnSafeDeletionState ch s w).world.cluster = none →
      (ch.UninstallSecrets (sFnSafeDeletionState ch s w).s.chartConfig []
        (sFnSafeDeletionState ch s w).world.cluster).1 = (none, true) →
      (ch.Uninstall (sFnSafeDeletionState ch s w).s.chartConfig []
        (ch.UninstallSecrets (sFnSafeDeletionState ch s w).s.chartConfig []
          (sFnSafeDeletionState ch s w).world.cluster).2).1 = none →
      (sFnSafeDeletionState ch (sFnSafeDeletionState ch s w).s
          (sFnSafeDeletionState ch s w).world).observed =
        (sFnSafeDeletionState ch s w).observed ∧
      (sFnSafeDeletionState ch s w).observed =
        ((some stateFn.sFnRemoveFinalizer, none, none), State.StateDeleting,
          some (ConditionStatus.True, ConditionReason.ConditionReasonDeleted,
            "DockerRegistry module deleted"))) := by
  have success : ∀ (s₀ : systemState χ) (w₀ : World κ φ),
      ch.CheckCRDOrphanResources s₀.chartConfig w₀.cluster = none →
      (ch.UninstallSecrets s₀.chartConfig [] w₀.cluster).1 = (none, true) →
      (ch.Uninstall s₀.chartConfig [] (ch.UninstallSecrets s₀.chartConfig [] w₀.cluster).2).1 =
        none →
      (sFnSafeDeletionState ch s₀ w₀).observed =
        ((some stateFn.sFnRemoveFinalizer, none, none), State.StateDeleting,
          some (ConditionStatus.True, ConditionReason.ConditionReasonDeleted,
            "DockerRegistry module deleted")) := by
    intro s₀ w₀ hc hs hu
    rw [observed_sFnSafeDeletionState, hc]
    simp only
    rw [observed_deleteResourcesWithFilter, hs]
    simp only [hu]
  constructor
  · intro ch' s' w' htr
    rcases course_sFnSafeDeletionState ch s w with
      ⟨e, h1, h2⟩ | ⟨e, d, h1, h2⟩ | ⟨h1, h2⟩ | ⟨e, h1, h2⟩ | ⟨h1, h2⟩ <;>
    rcases course_sFnSafeDeletionState ch' s' w' with
      ⟨e', h1', h2'⟩ | ⟨e', d', h1', h2'⟩ | ⟨h1', h2'⟩ | ⟨e', h1', h2'⟩ | ⟨h1', h2'⟩ <;>
    (rw [h1, h1'] at htr; simp at htr) <;> (rw [h2, h2']) <;> simp_all
  · intro hc hs hu hc' hs' hu'
    have first := success s w hc hs hu
    have second := success (sFnSafeDeletionState ch s w).s (sFnSafeDeletionState ch s w).world
      hc' hs' hu'
    exact ⟨second.trans first.symm, first⟩

/-- Witness of C9 on a cluster with no secret left, from a resource in phase Ready whose
`Deleted` condition is False: the second invocation leaves what the first one left. -/
theorem state.sFnSafeDeletionState_idempotent_witness :
    (sFnSafeDeletionState countingChart
        (sFnSafeDeletionState countingChart sampleState (sampleWorld 0)).s
        (sFnSafeDeletionState countingChart sampleState (sampleWorld 0)).world).observed =
      (sFnSafeDeletionState countingChart sampleState (sampleWorld 0)).observed ∧
    (sFnSafeDeletionState countingChart sampleState (sampleWorld 0)).observed =
      ((some stateFn.sFnRemoveFinalizer, none, none), State.StateDeleting,
        some (ConditionStatus.True, ConditionReason.ConditionReasonDeleted,
          "DockerRegistry module deleted")) :=
  (sFnSafeDeletionState_idempotent countingChart sampleState (sampleWorld 0)).2
    rfl rfl rfl rfl rfl rfl

/-- C10: exact identity wins. When `Get` succeeds for the key of the request with the object
`o`, `GetDockerRegistryOrServed` returns `o` and no error, and the only read it makes is that
`Get`: the store is not listed. Nothing is asked of the served mark of `o` or of any other
object of the store. -/
theorem state.GetDockerRegistryOrServed_found (req : ctrl.Request) (c : client.Client)
    (o : DockerRegistry) (h : c.Get req.NamespacedName = Except.ok o) :
    (GetDockerRegistryOrServed req c).1 = (some o, none) ∧
    (GetDockerRegistryOrServed req c).2 = [client.Call.Get req.NamespacedName] ∧
    client.Call.List ∉ (GetDockerRegistryOrServed req c).2 := by
  simp [GetDockerRegistryOrServed, h]

/-- Witness of C10: the resource "first" is not served and the store holds a served one, yet
the request for "first" returns "first" without listing. -/
theorem state.GetDockerRegistryOrServed_found_witness :
    (client.storeClient sampleStore).Get requestFirst.NamespacedName =
      Except.ok { Namespace := "kyma-system", Name := "first",
                  Status := { State := State.StateWarning, Served := Served.ServedFalse,
                              Conditions := [] } } ∧
    (GetDockerRegistryOrServed requestFirst (client.storeClient sampleStore)).1 =
      (some { Namespace := "kyma-system", Name := "first",
              Status := { State := State.StateWarning, Served := Served.ServedFalse,
                          Conditions := [] } }, none) ∧
    (GetDockerRegistryOrServed requestFirst (client.storeClient sampleStore)).2 =
      [client.Call.Get requestFirst.NamespacedName] :=
  have h := GetDockerRegistryOrServed_found requestFirst (client.storeClient sampleStore)
    { Namespace := "kyma-system", Name := "first",
      Status := { State := State.StateWarning, Served := Served.ServedFalse,
                  Conditions := [] } } rfl
  ⟨rfl, h.1, h.2.1⟩

/-- The test of the loop of `GetServedDockerRegistry` holds exactly of the objects whose
served mark is `ServedTrue`. -/
theorem state.servedTest_iff (item : DockerRegistry) :
    (!item.IsServedEmpty && item.Status.Served == Served.ServedTrue) = true ↔
      item.Status.Served = Served.ServedTrue := by
  cases h : item.Status.Served <;> simp [DockerRegistry.IsServedEmpty, h]

/-- What `GetDockerRegistryOrServed` returns when `Get` reports NotFound and the listing
succeeds: what the scan of the list finds, after the two reads. -/
theorem state.GetDockerRegistryOrServed_fallback (req : ctrl.Request) (c : client.Client)
    (e : GoError) (items : List DockerRegistry)
    (hget : c.Get req.NamespacedName = Except.error e) (hnf : k8serrors.IsNotFound e = true)
    (hlist : c.List = Except.ok items) :
    GetDockerRegistryOrServed req c =
      ((items.find? (fun item =>
          !item.IsServedEmpty && item.Status.Served == Served.ServedTrue), none),
        [client.Call.Get req.NamespacedName, client.Call.List]) := by
  cases hf : items.find? (fun item =>
      !item.IsServedEmpty && item.Status.Served == Served.ServedTrue) <;>
    simp [GetDockerRegistryOrServed, GetServedDockerRegistry, hget, hnf, hlist, hf]

/-- C11: served fallback. When `Get` reports NotFound and the listing succeeds with `items`,
`GetDockerRegistryOrServed` returns the first element in list order whose served mark is
`ServedTrue`: an element that is served and has no served element before it is the one
returned; whatever object is returned is served, is in the list and has no served element
before it; and of three listed objects with exactly one served, that one is returned, whatever
its position. -/
theorem state.GetDockerRegistryOrServed_served (req : ctrl.Request) (c : client.Client)
    (e : GoError) (items : List DockerRegistry)
    (hget : c.Get req.NamespacedName = Except.error e) (hnf : k8serrors.IsNotFound e = true)
    (hlist : c.List = Except.ok items) :
    (∀ pre item post, items = pre ++ item :: post →
      item.Status.Served = Served.ServedTrue →
      (∀ x ∈ pre, x.Status.Served ≠ Served.ServedTrue) →
      (GetDockerRegistryOrServed req c).1 = (some item, none)) ∧
    (∀ o, (GetDockerRegistryOrServed req c).1.1 = some o →
      o.Status.Served = Served.ServedTrue ∧
      ∃ pre post, items = pre ++ o :: post ∧
        ∀ x ∈ pre, x.Status.Served ≠ Served.ServedTrue) ∧
    (∀ x y z o, items = [x, y, z] → o ∈ items → o.Status.Served = Served.ServedTrue →
      (∀ o' ∈ items, o'.Status.Served = Served.ServedTrue → o' = o) →
      (GetDockerRegistryOrServed req c).1 = (some o, none)) := by
  have hfb := GetDockerRegistryOrServed_fallback req c e items hget hnf hlist
  have first : ∀ pre item post, items = pre ++ item :: post →
      item.Status.Served = Served.ServedTrue →
      (∀ x ∈ pre, x.Status.Served ≠ Served.ServedTrue) →
      (GetDockerRegistryOrServed req c).1 = (some item, none) := by
    intro pre item post hsplit hserved hpre
    have hfind : items.find? (fun item =>
        !item.IsServedEmpty && item.Status.Served == Served.ServedTrue) = some item := by
      rw [List.find?_eq_some]
      refine ⟨(servedTest_iff item).2 hserved, pre, post, hsplit, ?_⟩
      intro x hx
      have hne := hpre x hx
      have hfalse : (!x.IsServedEmpty && x.Status.Served == Served.ServedTrue) = false := by
        cases hb : (!x.IsServedEmpty && x.Status.Served == Served.ServedTrue)
        · rfl
        · exact absurd ((servedTest_iff x).1 hb) hne
      simp [hfalse]
    rw [hfb, hfind]
  refine ⟨first, ?_, ?_⟩
  · intro o ho
    rw [hfb] at ho
    simp only at ho
    rw [List.find?_eq_some] at ho
    obtain ⟨hp, pre, post, hsplit, hpre⟩ := ho
    refine ⟨(servedTest_iff o).1 hp, pre, post, hsplit, ?_⟩
    intro x hx hserved
    have := hpre x hx
    rw [(servedTest_iff x).2 hserved] at this
    simp at this
  · intro x y z o _ ho hserved huniq
    rw [hfb]
    cases hf : items.find? (fun item =>
        !item.IsServedEmpty && item.Status.Served == Served.ServedTrue) with
    | none =>
      rw [List.find?_eq_none] at hf
      exact absurd ((servedTest_iff o).2 hserved) (hf o ho)
    | some o' =>
      have hs' : o'.Status.Served = Served.ServedTrue :=
        (servedTest_iff o').1 (by simpa using List.find?_some hf)
      rw [huniq o' (List.mem_of_find?_eq_some hf) hs']

/-- Witness of C11: the requested key is absent from the sample store, whose second object is
the only served one; the resolver returns it. -/
theorem state.GetDockerRegistryOrServed_served_witness :
    (client.storeClient sampleStore).Get requestMissing.NamespacedName =
      Except.error (.notFound "dockerregistries \"absent\" not found") ∧
    (GetDockerRegistryOrServed requestMissing (client.storeClient sampleStore)).1 =
      (some { Namespace := "kyma-system", Name := "second",
              Status := { State := State.StateReady, Served := Served.ServedTrue,
                          Conditions := [] } }, none) :=
  have h := GetDockerRegistryOrServed_served requestMissing (client.storeClient sampleStore)
    (.notFound "dockerregistries \"absent\" not found") sampleStore rfl rfl rfl
  ⟨rfl, h.2.2
    { Namespace := "kyma-system", Name := "first",
      Status := { State := State.StateWarning, Served := Served.ServedFalse,
                  Conditions := [] } }
    { Namespace := "kyma-system", Name := "second",
      Status := { State := State.StateReady, Served := Served.ServedTrue,
                  Conditions := [] } }
    { Namespace := "default", Name := "third",
      Status := { State := State.StateNone, Served := Served.ServedUnset,
                  Conditions := [] } }
    { Namespace := "kyma-system", Name := "second",
      Status := { State := State.StateReady, Served := Served.ServedTrue,
                  Conditions := [] } }
    rfl (by decide) rfl (by decide)⟩

/-- C12: absence is not an error. When `Get` reports NotFound and the listing succeeds with a
list that holds no object whose served mark is `ServedTrue` (the empty list, or objects all not
served or unset), `GetDockerRegistryOrServed` returns no object and no error, and so does
`GetServedDockerRegistry`. -/
theorem state.GetDockerRegistryOrServed_absent (req : ctrl.Request) (c : client.Client)
    (e : GoError) (items : List DockerRegistry)
    (hget : c.Get req.NamespacedName = Except.error e) (hnf : k8serrors.IsNotFound e = true)
    (hlist : c.List = Except.ok items)
    (hnone : ∀ x ∈ items, x.Status.Served ≠ Served.ServedTrue) :
    (GetDockerRegistryOrServed req c).1 = (none, none) ∧
    (GetServedDockerRegistry c).1 = (none, none) := by
  have hfind : items.find? (fun item =>
      !item.IsServedEmpty && item.Status.Served == Served.ServedTrue) = none := by
    rw [List.find?_eq_none]
    intro x hx hp
    exact hnone x hx ((servedTest_iff x).1 hp)
  constructor
  · rw [GetDockerRegistryOrServed_fallback req c e items hget hnf hlist, hfind]
  · simp only [GetServedDockerRegistry, hlist, hfind]

/-- Witness of C12, on a store whose objects are not served or unset and on the empty store. -/
theorem state.GetDockerRegistryOrServed_absent_witness :
    ((GetDockerRegistryOrServed requestMissing (client.storeClient unservedStore)).1 =
        (none, none) ∧
      (GetServedDockerRegistry (client.storeClient unservedStore)).1 = (none, none)) ∧
    ((GetDockerRegistryOrServed requestMissing (client.storeClient [])).1 = (none, none) ∧
      (GetServedDockerRegistry (client.storeClient [])).1 = (none, none)) :=
  ⟨GetDockerRegistryOrServed_absent requestMissing (client.storeClient unservedStore)
      (.notFound "dockerregistries \"absent\" not found") unservedStore rfl rfl rfl
      (by decide),
    GetDockerRegistryOrServed_absent requestMissing (client.storeClient [])
      (.notFound "dockerregistries \"absent\" not found") [] rfl rfl rfl
      (by decide)⟩

/-- C13, as stated, fails: when `Get` reports NotFound and the listing fails with
"connection refused", the error returned wraps the cause with the context "while fetching
served dockerregistry instance"; it is not the cause, or any other error, wrapped with "while
fetching dockerregistry instance". -/
theorem state.GetDockerRegistryOrServed_listFailure_context :
    (GetDockerRegistryOrServed requestMissing
        (client.failingListClient (.plain "connection refused"))).1 =
      (none, some (.wrap (.plain "connection refused")
        "while fetching served dockerregistry instance")) ∧
    ¬ ∃ cause, (GetDockerRegistryOrServed requestMissing
        (client.failingListClient (.plain "connection refused"))).1.2 =
      some (errors.Wrap cause "while fetching dockerregistry instance") := by
  refine ⟨rfl, ?_⟩
  rintro ⟨cause, h⟩
  have h' : (GoError.wrap (.plain "connection refused")
      "while fetching served dockerregistry instance") =
      GoError.wrap cause "while fetching dockerregistry instance" := Option.some.inj h
  have hctx : "while fetching served dockerregistry instance" =
      "while fetching dockerregistry instance" := (GoError.wrap.inj h').2
  exact absurd hctx (by decide)

/-- C13, amended: `GetDockerRegistryOrServed` returns an error if and only if `Get` fails with
an error other than NotFound, or `Get` reports NotFound and the listing fails. In the first
case no object is returned, the error is the error of `Get` wrapped with the context "while
fetching dockerregistry instance", and the only read made is the `Get`: the store is not
listed. In the second case no object is returned and the error is the error of the listing
wrapped with the context "while fetching served dockerregistry instance". In both cases the
cause of the returned error is the cause of the original one. -/
theorem state.GetDockerRegistryOrServed_errors (req : ctrl.Request) (c : client.Client) :
    ((GetDockerRegistryOrServed req c).1.2 ≠ none ↔
      ((∃ e, c.Get req.NamespacedName = Except.error e ∧ k8serrors.IsNotFound e = false) ∨
        (∃ e e', c.Get req.NamespacedName = Except.error e ∧ k8serrors.IsNotFound e = true ∧
          c.List = Except.error e'))) ∧
    (∀ e, c.Get req.NamespacedName = Except.error e → k8serrors.IsNotFound e = false →
      GetDockerRegistryOrServed req c =
        ((none, some (errors.Wrap e "while fetching dockerregistry instance")),
          [client.Call.Get req.NamespacedName]) ∧
      (errors.Wrap e "while fetching dockerregistry instance").Cause = e.Cause ∧
      client.Call.List ∉ (GetDockerRegistryOrServed req c).2) ∧
    (∀ e e', c.Get req.NamespacedName = Except.error e → k8serrors.IsNotFound e = true →
      c.List = Except.error e' →
      GetDockerRegistryOrServed req c =
        ((none, some (errors.Wrap e' "while fetching served dockerregistry instance")),
          [client.Call.Get req.NamespacedName, client.Call.List]) ∧
      (errors.Wrap e' "while fetching served dockerregistry instance").Cause = e'.Cause) := by
  refine ⟨?_, ?_, ?_⟩
  · cases hget : c.Get req.NamespacedName with
    | ok o => simp [GetDockerRegistryOrServed, hget]
    | error e =>
      cases hnf : k8serrors.IsNotFound e with
      | false => simp [GetDockerRegistryOrServed, hget, hnf]
      | true =>
        cases hlist : c.List with
        | error e' =>
          simp [GetDockerRegistryOrServed, GetServedDockerRegistry, hget, hnf, hlist]
        | ok items =>
          have h := GetDockerRegistryOrServed_fallback req c e items hget hnf hlist
          simp [h, hnf]
  · intro e hget hnf
    simp [GetDockerRegistryOrServed, hget, hnf, errors.Wrap, GoError.Cause]
  · intro e e' hget hnf hlist
    simp [GetDockerRegistryOrServed, GetServedDockerRegistry, hget, hnf, hlist, errors.Wrap,
      GoError.Cause]

/-- Witness of the amended C13: a `Get` that fails with "forbidden" is surfaced without
listing, and a failing listing after a NotFound is surfaced with the served context. -/
theorem state.GetDockerRegistryOrServed_errors_witness :
    GetDockerRegistryOrServed requestFirst
        (client.failingGetClient (.plain "forbidden") sampleStore) =
      ((none, some (.wrap (.plain "forbidden") "while fetching dockerregistry instance")),
        [client.Call.Get requestFirst.NamespacedName]) ∧
    GetDockerRegistryOrServed requestMissing
        (client.failingListClient (.plain "connection refused")) =
      ((none, some (.wrap (.plain "connection refused")
          "while fetching served dockerregistry instance")),
        [client.Call.Get requestMissing.NamespacedName, client.Call.List]) :=
  ⟨((GetDockerRegistryOrServed_errors requestFirst
      (client.failingGetClient (.plain "forbidden") sampleStore)).2.1
      (.plain "forbidden") rfl rfl).1,
    ((GetDockerRegistryOrServed_errors requestMissing
      (client.failingListClient (.plain "connection refused"))).2.2
      (.notFound "dockerregistries \"absent\" not found") (.plain "connection refused")
      rfl rfl rfl).1⟩

/-- Setting a condition leaves one entry of its type when there was none and as many as there
were otherwise. -/
theorem state.countConditions_setStatusCondition (conds : List Condition) (new : Condition) :
    countConditions (setStatusCondition conds new) new.type =
      max 1 (countConditions conds new.type) := by
  induction conds with
  | nil => simp [setStatusCondition, countConditions]
  | cons c cs ih =>
    unfold setStatusCondition
    by_cases ht : c.type = new.type
    · by_cases hs : c.status = new.status <;>
        simp [countConditions, ht, hs]
    · simp only [ht, if_false]
      simp only [countConditions] at ih ⊢
      rw [List.filter_cons_of_neg (by simpa using ht),
        List.filter_cons_of_neg (by simpa using ht)]
      exact ih

/-- Setting a condition leaves the entries of every other type as they were. -/
theorem state.otherConditions_setStatusCondition (conds : List Condition) (new : Condition) :
    otherConditions (setStatusCondition conds new) new.type =
      otherConditions conds new.type := by
  induction conds with
  | nil => simp [setStatusCondition, otherConditions]
  | cons c cs ih =>
    unfold setStatusCondition
    by_cases ht : c.type = new.type
    · by_cases hs : c.status = new.status <;>
        simp [otherConditions, ht, hs]
    · simp only [ht, if_false]
      simp only [otherConditions] at ih ⊢
      rw [List.filter_cons_of_pos (by simpa using ht),
        List.filter_cons_of_pos (by simpa using ht), ih]

/-- Setting a condition whose type has an entry overwrites in place: the types of the
entries, in order, are the ones before. -/
theorem state.conditionTypes_setStatusCondition (conds : List Condition) (new : Condition)
    (h : 1 ≤ countConditions conds new.type) :
    conditionTypes (setStatusCondition conds new) = conditionTypes conds := by
  induction conds with
  | nil => simp [countConditions] at h
  | cons c cs ih =>
    unfold setStatusCondition
    by_cases ht : c.type = new.type
    · by_cases hs : c.status = new.status <;>
        simp [conditionTypes, ht, hs]
    · simp only [ht, if_false]
      have h' : 1 ≤ countConditions cs new.type := by
        simp only [countConditions] at h ⊢
        rwa [List.filter_cons_of_neg (by simpa using ht)] at h
      simp only [conditionTypes, List.map_cons] at ih ⊢
      rw [ih h']

/-- Every invocation sets the `Deleted` condition once: the conditions it leaves are the ones
before with one `Deleted` condition set. -/
theorem state.conditions_invoke (i : Invocation χ κ φ) (s : systemState χ) (w : World κ φ) :
    ∃ (st : ConditionStatus) (r : ConditionReason) (m : String),
      (invoke i s w).s.«instance».Status.Conditions =
        setStatusCondition s.«instance».Status.Conditions
          { type := ConditionType.ConditionTypeDeleted, status := st, reason := r,
            message := m, lastTransitionTime := w.now } := by
  cases i with
  | sFnDeleteResources =>
    exact ⟨_, _, _, rfl⟩
  | sFnSafeDeletionState ch =>
    rcases hc : ch.CheckCRDOrphanResources s.chartConfig w.cluster with _ | e
    · rcases hs' : ch.UninstallSecrets s.chartConfig [] w.cluster with ⟨⟨e, d⟩, k⟩
      rcases hu : ch.Uninstall s.chartConfig [] k with ⟨u, k'⟩
      cases e <;> cases d <;> cases u <;>
        simp only [invoke, sFnSafeDeletionState, hc, deleteResourcesWithFilter, hs', hu,
          uninstallSecretsError, uninstallResourcesError, awaitingSecretsRemoval,
          DockerRegistry.UpdateConditionFalse, DockerRegistry.UpdateConditionTrue,
          systemState.setState, Bool.not_true, Bool.not_false, Bool.false_eq_true, if_true,
          if_false] <;>
        exact ⟨_, _, _, rfl⟩
    · simp only [invoke, sFnSafeDeletionState, hc, DockerRegistry.UpdateConditionFalse,
        systemState.setState]
      exact ⟨_, _, _, rfl⟩
  | deleteResourcesWithFilter ch filterFuncs =>
    rcases hs' : ch.UninstallSecrets s.chartConfig filterFuncs w.cluster with ⟨⟨e, d⟩, k⟩
    rcases hu : ch.Uninstall s.chartConfig filterFuncs k with ⟨u, k'⟩
    cases e <;> cases d <;> cases u <;>
      simp only [invoke, deleteResourcesWithFilter, hs', hu,
        uninstallSecretsError, uninstallResourcesError, awaitingSecretsRemoval,
        DockerRegistry.UpdateConditionFalse, DockerRegistry.UpdateConditionTrue,
        systemState.setState, Bool.not_true, Bool.not_false, Bool.false_eq_true, if_true,
        if_false] <;>
      exact ⟨_, _, _, rfl⟩

/-- One invocation on conditions with exactly one `Deleted` entry leaves exactly one, at the
place it had, and leaves the entries of the other types as they were; a sequence of
invocations does the same. -/
theorem state.run_keeps_one (invs : List (Invocation χ κ φ)) (s : systemState χ)
    (w : World κ φ)
    (h : countConditions s.«instance».Status.Conditions
      ConditionType.ConditionTypeDeleted = 1) :
    countConditions (run invs s w).1.«instance».Status.Conditions
        ConditionType.ConditionTypeDeleted = 1 ∧
      conditionTypes (run invs s w).1.«instance».Status.Conditions =
        conditionTypes s.«instance».Status.Conditions ∧
      otherConditions (run invs s w).1.«instance».Status.Conditions
          ConditionType.ConditionTypeDeleted =
        otherConditions s.«instance».Status.Conditions
          ConditionType.ConditionTypeDeleted := by
  induction invs generalizing s w with
  | nil => exact ⟨h, rfl, rfl⟩
  | cons i rest ih =>
    obtain ⟨st, r, m, hi⟩ := conditions_invoke i s w
    have hcount := countConditions_setStatusCondition s.«instance».Status.Conditions
      { type := ConditionType.ConditionTypeDeleted, status := st, reason := r,
        message := m, lastTransitionTime := w.now }
    have htypes := conditionTypes_setStatusCondition s.«instance».Status.Conditions
      { type := ConditionType.ConditionTypeDeleted, status := st, reason := r,
        message := m, lastTransitionTime := w.now } (by simp [h])
    have hother := otherConditions_setStatusCondition s.«instance».Status.Conditions
      { type := ConditionType.ConditionTypeDeleted, status := st, reason := r,
        message := m, lastTransitionTime := w.now }
    simp only at hcount hother
    rw [← hi] at hcount htypes hother
    rw [h] at hcount
    have h' := ih (invoke i s w).s (invoke i s w).world (by simpa using hcount)
    simp only [run]
    exact ⟨h'.1, h'.2.1.trans htypes, h'.2.2.trans hother⟩

/-- C14: one `Deleted` entry per object. From conditions with at most one entry of type
`Deleted`, after any finite sequence of invocations of `sFnDeleteResources`,
`sFnSafeDeletionState` and `deleteResourcesWithFilter`, each against any chart and with any
filters: the conditions hold at most one `Deleted` entry, and exactly one once an invocation
has run; the entries of every other type are the ones before, in order; and when there was a
`Deleted` entry it is overwritten in place, the types of the entries being, in order, the ones
before (nothing is appended). -/
theorem state.run_one_deleted (invs : List (Invocation χ κ φ)) (s : systemState χ)
    (w : World κ φ)
    (h : countConditions s.«instance».Status.Conditions
      ConditionType.ConditionTypeDeleted ≤ 1) :
    countConditions (run invs s w).1.«instance».Status.Conditions
        ConditionType.ConditionTypeDeleted ≤ 1 ∧
    (invs ≠ [] →
      countConditions (run invs s w).1.«instance».Status.Conditions
        ConditionType.ConditionTypeDeleted = 1) ∧
    otherConditions (run invs s w).1.«instance».Status.Conditions
        ConditionType.ConditionTypeDeleted =
      otherConditions s.«instance».Status.Conditions ConditionType.ConditionTypeDeleted ∧
    (countConditions s.«instance».Status.Conditions
        ConditionType.ConditionTypeDeleted = 1 →
      conditionTypes (run invs s w).1.«instance».Status.Conditions =
        conditionTypes s.«instance».Status.Conditions) := by
  cases invs with
  | nil => exact ⟨h, fun hne => absurd rfl hne, rfl, fun _ => rfl⟩
  | cons i rest =>
    obtain ⟨st, r, m, hi⟩ := conditions_invoke i s w
    have hcount := countConditions_setStatusCondition s.«instance».Status.Conditions
      { type := ConditionType.ConditionTypeDeleted, status := st, reason := r,
        message := m, lastTransitionTime := w.now }
    have hother := otherConditions_setStatusCondition s.«instance».Status.Conditions
      { type := ConditionType.ConditionTypeDeleted, status := st, reason := r,
        message := m, lastTransitionTime := w.now }
    simp only at hcount hother
    rw [← hi] at hcount hother
    have hone : countConditions (invoke i s w).s.«instance».Status.Conditions
        ConditionType.ConditionTypeDeleted = 1 := by
      rw [hcount]
      omega
    have hrest := run_keeps_one rest (invoke i s w).s (invoke i s w).world hone
    simp only [run]
    refine ⟨le_of_eq hrest.1, fun _ => hrest.1, hrest.2.2.trans hother, ?_⟩
    intro hbefore
    exact (run_keeps_one (i :: rest) s w hbefore).2.1

/-- Witness of C14: the sample resource holds one stale `Deleted` entry after an entry of
another type; three invocations later it still holds one, and the other entry is untouched. -/
theorem state.run_one_deleted_witness :
    countConditions sampleState.«instance».Status.Conditions
        ConditionType.ConditionTypeDeleted ≤ 1 ∧
    countConditions (run [Invocation.sFnDeleteResources,
        Invocation.sFnSafeDeletionState countingChart,
        Invocation.deleteResourcesWithFilter
          (fixedChart none (some (.plain "forbidden"), false) none) ["keep"]]
        sampleState (sampleWorld 1)).1.«instance».Status.Conditions
      ConditionType.ConditionTypeDeleted = 1 ∧
    otherConditions (run [Invocation.sFnDeleteResources,
        Invocation.sFnSafeDeletionState countingChart,
        Invocation.deleteResourcesWithFilter
          (fixedChart none (some (.plain "forbidden"), false) none) ["keep"]]
        sampleState (sampleWorld 1)).1.«instance».Status.Conditions
      ConditionType.ConditionTypeDeleted =
      otherConditions sampleState.«instance».Status.Conditions
        ConditionType.ConditionTypeDeleted :=
  have h := run_one_deleted [Invocation.sFnDeleteResources,
      Invocation.sFnSafeDeletionState countingChart,
      Invocation.deleteResourcesWithFilter
        (fixedChart none (some (.plain "forbidden"), false) none) ["keep"]]
    sampleState (sampleWorld 1) (by decide)
  ⟨by decide, h.2.1 (by simp), h.2.2.1⟩

/-- C15: the code at the failing input. With the check failing on "dangling ingress",
`sFnSafeDeletionState` returns no next step, the error, and no requeue directive at all: not
the directive "requeue after one minute" that the comment in the source announces. -/
theorem state.sFnSafeDeletionState_orphans_no_requeue :
    (sFnSafeDeletionState (fixedChart (some (.plain "dangling ingress")) (none, true) none)
        sampleState (sampleWorld 0)).result =
      (none, none, some (.plain "dangling ingress")) ∧
    (sFnSafeDeletionState (fixedChart (some (.plain "dangling ingress")) (none, true) none)
        sampleState (sampleWorld 0)).result.2.1 ≠
      some { Requeue := false, RequeueAfter := time.Minute } := by
  constructor
  · rfl
  · intro h
    have h' : (none : Option ctrl.Result) =
        some { Requeue := false, RequeueAfter := time.Minute } := h
    exact Option.noConfusion h'

/-- C16: the shape of the returned triple. For every state, world, chart and filter list,
each of `sFnDeleteResources`, `sFnSafeDeletionState` and `deleteResourcesWithFilter` returns a
triple with exactly one component present. The next step is present for `sFnDeleteResources`
always and for the other two exactly when the whole uninstall succeeded; the requeue directive
is present exactly when the secrets removal returned no error and `done = false`; the error is
present exactly when the check, the secrets removal or the uninstall failed. -/
theorem state.stepResult_shape (ch : chart.Ops χ κ φ) (s : systemState χ) (w : World κ φ)
    (filterFuncs : List φ) :
    (presentCount (sFnDeleteResources s w).result = 1 ∧
      (sFnDeleteResources s w).result.1.isSome = true) ∧
    (presentCount (deleteResourcesWithFilter ch s w filterFuncs).result = 1 ∧
      ((deleteResourcesWithFilter ch s w filterFuncs).result.1.isSome = true ↔
        (ch.UninstallSecrets s.chartConfig filterFuncs w.cluster).1 = (none, true) ∧
        (ch.Uninstall s.chartConfig filterFuncs
          (ch.UninstallSecrets s.chartConfig filterFuncs w.cluster).2).1 = none) ∧
      ((deleteResourcesWithFilter ch s w filterFuncs).result.2.1.isSome = true ↔
        (ch.UninstallSecrets s.chartConfig filterFuncs w.cluster).1 = (none, false)) ∧
      ((deleteResourcesWithFilter ch s w filterFuncs).result.2.2.isSome = true ↔
        (ch.UninstallSecrets s.chartConfig filterFuncs w.cluster).1.1 ≠ none ∨
        ((ch.UninstallSecrets s.chartConfig filterFuncs w.cluster).1 = (none, true) ∧
          (ch.Uninstall s.chartConfig filterFuncs
            (ch.UninstallSecrets s.chartConfig filterFuncs w.cluster).2).1 ≠ none))) ∧
    (presentCount (sFnSafeDeletionState ch s w).result = 1 ∧
      ((sFnSafeDeletionState ch s w).result.1.isSome = true ↔
        ch.CheckCRDOrphanResources s.chartConfig w.cluster = none ∧
        (ch.UninstallSecrets s.chartConfig [] w.cluster).1 = (none, true) ∧
        (ch.Uninstall s.chartConfig []
          (ch.UninstallSecrets s.chartConfig [] w.cluster).2).1 = none) ∧
      ((sFnSafeDeletionState ch s w).result.2.1.isSome = true ↔
        ch.CheckCRDOrphanResources s.chartConfig w.cluster = none ∧
        (ch.UninstallSecrets s.chartConfig [] w.cluster).1 = (none, false)) ∧
      ((sFnSafeDeletionState ch s w).result.2.2.isSome = true ↔
        ch.CheckCRDOrphanResources s.chartConfig w.cluster ≠ none ∨
        (ch.UninstallSecrets s.chartConfig [] w.cluster).1.1 ≠ none ∨
        ((ch.UninstallSecrets s.chartConfig [] w.cluster).1 = (none, true) ∧
          (ch.Uninstall s.chartConfig []
            (ch.UninstallSecrets s.chartConfig [] w.cluster).2).1 ≠ none))) := by
  refine ⟨⟨rfl, rfl⟩, ?_, ?_⟩
  · rcases hs' : ch.UninstallSecrets s.chartConfig filterFuncs w.cluster with ⟨⟨e, d⟩, k⟩
    rcases hu : ch.Uninstall s.chartConfig filterFuncs k with ⟨u, k'⟩
    cases e <;> cases d <;> cases u <;>
      simp [deleteResourcesWithFilter, hs', hu, uninstallSecretsError,
        uninstallResourcesError, awaitingSecretsRemoval, presentCount, nextState,
        stopWithEventualError, requeueAfter]
  · rcases hc : ch.CheckCRDOrphanResources s.chartConfig w.cluster with _ | e₀
    · rcases hs' : ch.UninstallSecrets s.chartConfig [] w.cluster with ⟨⟨e, d⟩, k⟩
      rcases hu : ch.Uninstall s.chartConfig [] k with ⟨u, k'⟩
      cases e <;> cases d <;> cases u <;>
        simp [sFnSafeDeletionState, hc, deleteResourcesWithFilter, hs', hu,
          uninstallSecretsError, uninstallResourcesError, awaitingSecretsRemoval,
          presentCount, nextState, stopWithEventualError, requeueAfter]
    · simp [sFnSafeDeletionState, hc, presentCount, stopWithEventualError]

/-- C17: the warning path and the error path differ only in the phase. From the same state,
at the same clock reading, let `sFnSafeDeletionState` run once against a chart whose check
fails with `e`, and once against a chart whose check passes and whose secrets removal, or whose
uninstall after a done secrets removal, fails with `e`. Both runs return the triple of
`stopWithEventualError` on `e` (no next step, no directive, the error `e`) and leave the
`Deleted` condition False with reason `ConditionReasonDeletionErr` and the text of `e`; the
first leaves the phase Warning, the second the phase Error, and the two states are equal once
the phase is set aside. -/
theorem state.sFnSafeDeletionState_warning_vs_error (ch₁ ch₂ : chart.Ops χ κ φ)
    (s : systemState χ) (w₁ w₂ : World κ φ) (e : GoError) (hnow : w₁.now = w₂.now)
    (h₁ : ch₁.CheckCRDOrphanResources s.chartConfig w₁.cluster = some e)
    (h₂ : ch₂.CheckCRDOrphanResources s.chartConfig w₂.cluster = none)
    (h₃ : (ch₂.UninstallSecrets s.chartConfig [] w₂.cluster).1.1 = some e ∨
      ((ch₂.UninstallSecrets s.chartConfig [] w₂.cluster).1 = (none, true) ∧
        (ch₂.Uninstall s.chartConfig []
          (ch₂.UninstallSecrets s.chartConfig [] w₂.cluster).2).1 = some e)) :
    (sFnSafeDeletionState ch₁ s w₁).result = stopWithEventualError (some e) ∧
    (sFnSafeDeletionState ch₂ s w₂).result = stopWithEventualError (some e) ∧
    (sFnSafeDeletionState ch₁ s w₁).result = (none, none, some e) ∧
    (sFnSafeDeletionState ch₁ s w₁).s.«instance».deletedCondition =
      some (ConditionStatus.False, ConditionReason.ConditionReasonDeletionErr, e.Error) ∧
    (sFnSafeDeletionState ch₂ s w₂).s.«instance».deletedCondition =
      some (ConditionStatus.False, ConditionReason.ConditionReasonDeletionErr, e.Error) ∧
    (sFnSafeDeletionState ch₁ s w₁).s.«instance».Status.State = State.StateWarning ∧
    (sFnSafeDeletionState ch₂ s w₂).s.«instance».Status.State = State.StateError ∧
    (sFnSafeDeletionState ch₁ s w₁).s.setState State.StateError =
      (sFnSafeDeletionState ch₂ s w₂).s := by
  have o₁ := observed_sFnSafeDeletionState ch₁ s w₁
  have o₂ := observed_sFnSafeDeletionState ch₂ s w₂
  rw [h₁] at o₁
  rw [h₂, observed_deleteResourcesWithFilter] at o₂
  simp only [Outcome.observed, Prod.mk.injEq] at o₁
  have same : (sFnSafeDeletionState ch₁ s w₁).s.setState State.StateError =
      (sFnSafeDeletionState ch₂ s w₂).s := by
    rcases hs' : ch₂.UninstallSecrets s.chartConfig [] w₂.cluster with ⟨⟨e', d⟩, k⟩
    rw [hs'] at h₃
    rcases h₃ with h | ⟨hs, hu⟩
    · simp only at h
      subst h
      simp [sFnSafeDeletionState, h₁, h₂, deleteResourcesWithFilter, hs',
        uninstallSecretsError, DockerRegistry.UpdateConditionFalse, systemState.setState,
        hnow]
    · obtain ⟨rfl, rfl⟩ := Prod.mk.inj hs
      simp only at hu
      simp [sFnSafeDeletionState, h₁, h₂, deleteResourcesWithFilter, hs', hu,
        uninstallResourcesError, DockerRegistry.UpdateConditionFalse, systemState.setState,
        hnow]
  have second : (sFnSafeDeletionState ch₂ s w₂).observed =
      ((none, none, some e), State.StateError,
        some (ConditionStatus.False, ConditionReason.ConditionReasonDeletionErr,
          e.Error)) := by
    rcases hs' : ch₂.UninstallSecrets s.chartConfig [] w₂.cluster with ⟨⟨e', d⟩, k⟩
    rw [hs'] at h₃ o₂
    rcases h₃ with h | ⟨hs, hu⟩
    · simp only at h
      subst h
      exact o₂
    · obtain ⟨rfl, rfl⟩ := Prod.mk.inj hs
      simp only at hu
      simp only [hu] at o₂
      exact o₂
  simp only [Outcome.observed, Prod.mk.injEq] at second
  exact ⟨o₁.1, second.1, o₁.1, o₁.2.2, second.2.2, o₁.2.1, second.2.1, same⟩

/-- Witness of C17: the check failing with "dangling ingress" against the secrets removal,
and against the uninstall, failing with the same error. -/
theorem state.sFnSafeDeletionState_warning_vs_error_witness :
    ((sFnSafeDeletionState (fixedChart (some (.plain "dangling ingress")) (none, true) none)
        sampleState (sampleWorld 0)).result =
        (sFnSafeDeletionState
          (fixedChart none (some (.plain "dangling ingress"), false) none)
          sampleState (sampleWorld 3)).result ∧
      (sFnSafeDeletionState (fixedChart (some (.plain "dangling ingress")) (none, true) none)
        sampleState (sampleWorld 0)).s.setState State.StateError =
        (sFnSafeDeletionState
          (fixedChart none (some (.plain "dangling ingress"), false) none)
          sampleState (sampleWorld 3)).s) ∧
    ((sFnSafeDeletionState (fixedChart (some (.plain "dangling ingress")) (none, true) none)
        sampleState (sampleWorld 0)).s.«instance».Status.State = State.StateWarning ∧
      (sFnSafeDeletionState
        (fixedChart none (none, true) (some (.plain "dangling ingress")))
        sampleState (sampleWorld 0)).s.«instance».Status.State = State.StateError) :=
  have a := sFnSafeDeletionState_warning_vs_error
    (fixedChart (some (.plain "dangling ingress")) (none, true) none)
    (fixedChart none (some (.plain "dangling ingress"), false) none)
    sampleState (sampleWorld 0) (sampleWorld 3) (.plain "dangling ingress") rfl rfl rfl
    (Or.inl rfl)
  have b := sFnSafeDeletionState_warning_vs_error
    (fixedChart (some (.plain "dangling ingress")) (none, true) none)
    (fixedChart none (none, true) (some (.plain "dangling ingress")))
    sampleState (sampleWorld 0) (sampleWorld 0) (.plain "dangling ingress") rfl rfl rfl
    (Or.inr ⟨rfl, rfl⟩)
  ⟨⟨a.1.trans a.2.1.symm, a.2.2.2.2.2.2.2⟩, ⟨b.2.2.2.2.2.1, b.2.2.2.2.2.2.1⟩⟩

end StepLemmas
